import Mathlib

/-!
Verification of the Universal File Parser / ESG data-extraction pipeline of the
ESG-Compass repository (`apps/files/file_parser.py`, `apps/files/simple_parser.py`,
`apps/files/models.py`, `apps/files/management/commands/process_existing_files.py`).

The Python code is shallowly embedded: Python floats become `ℚ`, Python ints `ℤ`,
`None`-able values `Option`, and dictionaries association lists with Python's
insertion-order / last-write-wins semantics.  Calls into external libraries
(pdfplumber, PyPDF2, pandas, PIL/pytesseract, python-docx, `json.load`,
`xml.etree`, the `re` regex engine, and raw file reads) are represented by their
results, carried in a `ParseEnv` record; a library call that may raise is an
`Except String` value.  Everything else — the dispatch, guards, loops, fallback
paths, scoring and aggregation — is translated statement by statement from the
source.
-/

/-- Substring containment, the semantics of Python's `needle in hay` on strings
(an empty needle is contained in every string). -/
def strContainsSub (hay needle : String) : Bool :=
  hay.toList.tails.any (fun suf => needle.toList.isPrefixOf suf)

/-- Python `s.lower()` (structural, so that concrete evaluations reduce). -/
def pyLower (s : String) : String :=
  String.mk (s.toList.map Char.toLower)

/-- Python `s.strip()`. -/
def pyTrim (s : String) : String :=
  String.mk
    (((s.toList.dropWhile Char.isWhitespace).reverse.dropWhile Char.isWhitespace).reverse)

/-- Replace every non-overlapping occurrence of `pat` (non-empty) by `repl`,
left to right; the fuel argument makes the recursion structural. -/
def replaceGo (pat repl : List Char) : ℕ → List Char → List Char
  | _, [] => []
  | 0, cs => cs
  | fuel + 1, c :: cs =>
    if pat.isPrefixOf (c :: cs) then
      repl ++ replaceGo pat repl fuel ((c :: cs).drop pat.length)
    else
      c :: replaceGo pat repl fuel cs

/-- Python `s.replace(pat, repl)` for a non-empty pattern. -/
def pyReplace (s pat repl : String) : String :=
  String.mk (replaceGo pat.toList repl.toList s.length s.toList)

/-- Split on non-overlapping occurrences of `sep` (non-empty), left to right;
the fuel argument makes the recursion structural. -/
def splitGo (sep : List Char) : ℕ → List Char → List Char → List (List Char)
  | _, acc, [] => [acc.reverse]
  | 0, acc, cs => [acc.reverse ++ cs]
  | fuel + 1, acc, c :: cs =>
    if sep.isPrefixOf (c :: cs) then
      acc.reverse :: splitGo sep fuel [] ((c :: cs).drop sep.length)
    else
      splitGo sep fuel (c :: acc) cs

/-- Python `s.split(sep)` for a non-empty separator. -/
def pySplitOn (s sep : String) : List String :=
  (splitGo sep.toList s.length [] s.toList).map String.mk

/-- Python `sep.join(parts)`. -/
def pyJoinSep (sep : String) : List String → String
  | [] => ""
  | [s] => s
  | s :: rest => s ++ sep ++ pyJoinSep sep rest

/-- Numeric value of a decimal digit character. -/
def digitVal (c : Char) : ℕ := c.toNat - '0'.toNat

/-- Natural number denoted by a list of decimal digit characters. -/
def natOfDigits (ds : List Char) : ℕ := ds.foldl (fun n c => 10 * n + digitVal c) 0

/-- The rational `ip.fp` denoted by integer-part and fractional-part digit lists. -/
def decOfParts (ip fp : List Char) : ℚ :=
  (natOfDigits ip : ℚ) + (natOfDigits fp : ℚ) / ((10 : ℚ) ^ fp.length)

/-- Parse an unsigned decimal literal `digits[.digits]`, the whole list must be
consumed.  Models the core of Python's `float()` on already-stripped strings;
exotic accepted forms (exponents, `inf`, `nan`, underscores) are outside the
inputs this code base produces and are not modelled. -/
def parseUnsignedDec (cs : List Char) : Option ℚ :=
  let (ip, rest) := cs.span (fun c => c.isDigit)
  match rest with
  | [] => if ip.isEmpty then none else some (decOfParts ip [])
  | '.' :: rest2 =>
    let (fp, rest3) := rest2.span (fun c => c.isDigit)
    if rest3.isEmpty && !(ip.isEmpty && fp.isEmpty) then some (decOfParts ip fp) else none
  | _ => none

/-- Model of Python `float(s)` on a stripped string (decimal literals with an
optional sign). -/
def pyFloatOfString (s : String) : Option ℚ :=
  match s.toList with
  | '-' :: cs => (parseUnsignedDec cs).map (fun q => -q)
  | '+' :: cs => parseUnsignedDec cs
  | cs => parseUnsignedDec cs

/-- First (leftmost, greedy) match of the regex `\d+(?:\.\d+)?` in a character
list, as a rational.  Used by `_parse_number`'s fallback search. -/
def searchNumber : List Char → Option ℚ
  | [] => none
  | c :: cs =>
    if c.isDigit then
      let (ip, rest) := (c :: cs).span (fun x => x.isDigit)
      match rest with
      | '.' :: rest2 =>
        let fp := rest2.takeWhile (fun x => x.isDigit)
        if fp.isEmpty then some (decOfParts ip []) else some (decOfParts ip fp)
      | _ => some (decOfParts ip [])
    else searchNumber cs

/-- A Python value as it occurs in parsed JSON data, flattened key-value maps
and table cells. -/
inductive PyVal where
  | none
  | bool (b : Bool)
  | int (n : ℤ)
  | float (q : ℚ)
  | str (s : String)
  | dict (kvs : List (String × PyVal))
  | list (xs : List PyVal)
deriving Repr

/-- Python truthiness of a `PyVal`. -/
def pyTruthy : PyVal → Bool
  | .none => false
  | .bool b => b
  | .int n => n != 0
  | .float q => q != 0
  | .str s => !s.isEmpty
  | .dict kvs => !kvs.isEmpty
  | .list xs => !xs.isEmpty

/-- The string branch of `UniversalFileParser._parse_number`: strip thousands
separators and currency tokens, trim, try a float parse, then fall back to the
first embedded `\d+(?:\.\d+)?` substring. -/
def strParseNum (s : String) : Option ℚ :=
  let s := pyReplace s "," ""
  let s := pyReplace s "AED" ""
  let s := pyReplace s "USD" ""
  let s := pyReplace s "$" ""
  let s := pyTrim s
  match pyFloatOfString s with
  | some q => some q
  | none => searchNumber s.toList

/-- `UniversalFileParser._parse_number`.  `int`/`float` (and, as in Python,
`bool`, a subclass of `int`) values convert directly; strings go through
`strParseNum`; `None` gives `None`.  Containers never reach this function in
the repository (table cells and flattened key-value leaves are scalars); Python
would stringify them, which is not modelled. -/
def parseNumber : PyVal → Option ℚ
  | .none => none
  | .bool b => some (if b then 1 else 0)
  | .int n => some (n : ℚ)
  | .float q => some q
  | .str s => strParseNum s
  | .dict _ => none
  | .list _ => none

/-- Python `int()` truncation toward zero, on a rational. -/
def ratTrunc (q : ℚ) : ℤ := if 0 ≤ q then ⌊q⌋ else ⌈q⌉

/-- A table record: one `dict` produced from a table row, keys are column names
(`None`-able, since pdfplumber header cells can be `None`). -/
abbrev TableRec := List (Option String × PyVal)

/-- The `ExtractedData` dataclass of `file_parser.py`.  `diversity_rate` embeds
the source's diversity-ratio field. -/
structure ExtractedData where
  file_name : String
  file_type : String
  extraction_date : String
  extraction_method : String
  confidence_score : ℚ
  energy_consumption_kwh : Option ℚ := none
  water_usage_liters : Option ℚ := none
  waste_generated_kg : Option ℚ := none
  carbon_emissions_tco2 : Option ℚ := none
  renewable_energy_percentage : Option ℚ := none
  total_employees : Option ℤ := none
  training_hours : Option ℚ := none
  safety_incidents : Option ℤ := none
  employee_satisfaction_score : Option ℚ := none
  diversity_rate : Option ℚ := none
  board_meetings : Option ℤ := none
  compliance_score : Option ℚ := none
  audit_findings : Option ℤ := none
  policy_updates : Option ℤ := none
  raw_text : Option String := none
  tables : Option (List TableRec) := none
  key_value_pairs : Option (List (String × PyVal)) := none
  dates_found : Option (List String) := none
  amounts_found : Option (List (ℚ × String)) := none
deriving Repr

/-- Truthiness of an optional float field (`None` and `0.0` are falsy). -/
def optQTruthy : Option ℚ → Bool
  | some q => q != 0
  | none => false

/-- Truthiness of an optional int field. -/
def optZTruthy : Option ℤ → Bool
  | some n => n != 0
  | none => false

/-- The assignment pattern `if value and not data.field: data.field = value`
for a float field. -/
def guardAssignQ (cur : Option ℚ) (v : Option ℚ) : Option ℚ :=
  if optQTruthy v && !optQTruthy cur then v else cur

/-- The assignment pattern `if value and not data.field: data.field = int(value)`
for an int field. -/
def guardAssignZ (cur : Option ℤ) (v : Option ℚ) : Option ℤ :=
  match v with
  | some q => if (q != 0) && !optZTruthy cur then some (ratTrunc q) else cur
  | none => cur

/-- `data.raw_text and len(data.raw_text) > 100`. -/
def rawTextLongBonus (d : ExtractedData) : Bool :=
  match d.raw_text with
  | some t => !t.isEmpty && decide (100 < t.length)
  | none => false

/-- `data.tables and len(data.tables) > 0`. -/
def tablesBonus (d : ExtractedData) : Bool :=
  match d.tables with
  | some ts => !ts.isEmpty && decide (0 < ts.length)
  | none => false

/-- `UniversalFileParser._calculate_confidence`: one point per populated field
among the 7 checked metrics, half-point bonuses for substantial raw text and
for extracted tables, scaled by `(fields_checked + 1)` (the counter is
incremented once per checked field, hence `7`) and clamped at 100. -/
def calculateConfidence (d : ExtractedData) : ℚ :=
  let score : ℚ :=
    (if d.energy_consumption_kwh.isSome then 1 else 0) +
    (if d.water_usage_liters.isSome then 1 else 0) +
    (if d.waste_generated_kg.isSome then 1 else 0) +
    (if d.carbon_emissions_tco2.isSome then 1 else 0) +
    (if d.total_employees.isSome then 1 else 0) +
    (if d.training_hours.isSome then 1 else 0) +
    (if d.compliance_score.isSome then 1 else 0)
  let fieldsChecked : ℕ := 7
  let score := score + (if rawTextLongBonus d then 1/2 else 0)
  let score := score + (if tablesBonus d then 1/2 else 0)
  let confidence := if 0 < fieldsChecked then score / ((fieldsChecked : ℚ) + 1) * 100 else 0
  min confidence 100

/-- `UniversalFileParser._create_empty_result` (`raw_text = error or
"File type {status}"`, Python `or` treats an empty message as absent). -/
def createEmptyResult (now fileName status : String) (error : Option String) : ExtractedData :=
  { file_name := fileName
    file_type := status
    extraction_date := now
    extraction_method := "none"
    confidence_score := 0
    raw_text := some (match error with
      | some e => if e.isEmpty then "File type " ++ status else e
      | none => "File type " ++ status) }

/-- The results of the `re` library calls made by
`UniversalFileParser._extract_esg_metrics` on one text: per-metric lists of the
group-1 captures (in match order), the captured percentage figures, the date
strings, and for monetary amounts the pairs (captured numeral, 20-character
surrounding context). -/
structure ReMatches where
  energy : List String := []
  water : List String := []
  waste : List String := []
  carbon : List String := []
  employees : List String := []
  training : List String := []
  percentages : List ℚ := []
  dates : List String := []
  amounts : List (String × String) := []
deriving Repr

/-- The per-metric extraction loop `for match in finditer(...): value =
parse_number(group); if value and not field: field = value` on a float field. -/
def scanAssignQ (cur : Option ℚ) (cands : List String) : Option ℚ :=
  cands.foldl (fun acc s => guardAssignQ acc (parseNumber (.str s))) cur

/-- The same loop for the integer employee count (`field = int(value)`). -/
def scanAssignZ (cur : Option ℤ) (cands : List String) : Option ℤ :=
  cands.foldl (fun acc s => guardAssignZ acc (parseNumber (.str s))) cur

/-- One percentage-assignment block: when the context keyword occurs anywhere in
the lower-cased text and the field is still falsy, assign the first percentage
inside `[lo, hi]` (the loop breaks at the first hit). -/
def percentAssign (cur : Option ℚ) (keywordHit : Bool) (lo hi : ℚ)
    (percentages : List ℚ) : Option ℚ :=
  if keywordHit && !optQTruthy cur then
    match percentages.find? (fun p => decide (lo ≤ p) && decide (p ≤ hi)) with
    | some p => some p
    | none => cur
  else cur

/-- The monetary-amount collection loop: keep `{value, context}` for every
captured numeral whose parse is truthy. -/
def amountsOf (ms : List (String × String)) : List (ℚ × String) :=
  ms.filterMap (fun m =>
    match parseNumber (.str m.1) with
    | some v => if v != 0 then some (v, m.2) else Option.none
    | none => Option.none)

/-- `UniversalFileParser._extract_esg_metrics`: the text-pattern strategy.
Regex matching itself is the `re` library, represented by the `ReMatches`
argument; the keyword tests `'renewable' in text_lower` etc. are embedded
directly. -/
def extractEsgMetrics (data : ExtractedData) (text : String) (m : ReMatches) :
    ExtractedData :=
  if text.isEmpty then data else
  let tl := pyLower text
  let d := { data with
    energy_consumption_kwh := scanAssignQ data.energy_consumption_kwh m.energy }
  let d := { d with water_usage_liters := scanAssignQ d.water_usage_liters m.water }
  let d := { d with waste_generated_kg := scanAssignQ d.waste_generated_kg m.waste }
  let d := { d with carbon_emissions_tco2 := scanAssignQ d.carbon_emissions_tco2 m.carbon }
  let d := { d with total_employees := scanAssignZ d.total_employees m.employees }
  let d := { d with training_hours := scanAssignQ d.training_hours m.training }
  let d :=
    if m.percentages.isEmpty then d else
    let rPct := percentAssign d.renewable_energy_percentage
      (strContainsSub tl "renewable") 0 100 m.percentages
    let d := { d with renewable_energy_percentage := rPct }
    let sPct := percentAssign d.employee_satisfaction_score
      (strContainsSub tl "satisfaction") 50 100 m.percentages
    let d := { d with employee_satisfaction_score := sPct }
    let cPct := percentAssign d.compliance_score
      (strContainsSub tl "compliance") 0 100 m.percentages
    { d with compliance_score := cPct }
  let d := if m.dates.isEmpty then d else { d with dates_found := some (m.dates.take 10) }
  let amounts := amountsOf m.amounts
  if amounts.isEmpty then d else { d with amounts_found := some (amounts.take 10) }

/-- Python `str(key)` on a table-record key. -/
def pyKeyStr : Option String → String
  | some s => s
  | none => "None"

/-- Truthiness of a table-record key. -/
def keyTruthy : Option String → Bool
  | some s => !s.isEmpty
  | none => false

/-- The `if/elif` vocabulary dispatch of `_extract_from_tables` on one
lower-cased column name. -/
def tableVocabAssign (d : ExtractedData) (kl : String) (v : PyVal) : ExtractedData :=
  if strContainsSub kl "energy" || strContainsSub kl "kwh" then
    { d with energy_consumption_kwh := guardAssignQ d.energy_consumption_kwh (parseNumber v) }
  else if strContainsSub kl "water" then
    { d with water_usage_liters := guardAssignQ d.water_usage_liters (parseNumber v) }
  else if strContainsSub kl "waste" then
    { d with waste_generated_kg := guardAssignQ d.waste_generated_kg (parseNumber v) }
  else if strContainsSub kl "carbon" || strContainsSub kl "co2" ||
      strContainsSub kl "emission" then
    { d with carbon_emissions_tco2 := guardAssignQ d.carbon_emissions_tco2 (parseNumber v) }
  else if strContainsSub kl "employee" &&
      (strContainsSub kl "count" || strContainsSub kl "total") then
    { d with total_employees := guardAssignZ d.total_employees (parseNumber v) }
  else if strContainsSub kl "training" && strContainsSub kl "hour" then
    { d with training_hours := guardAssignQ d.training_hours (parseNumber v) }
  else d

/-- `UniversalFileParser._extract_from_tables`: the table-scan strategy
(`value_str` is computed by the source but never used). -/
def extractFromTables (data : ExtractedData) (tables : List TableRec) : ExtractedData :=
  tables.foldl (fun d row =>
    row.foldl (fun d kv =>
      if !keyTruthy kv.1 || !pyTruthy kv.2 then d
      else tableVocabAssign d (pyLower (pyKeyStr kv.1)) kv.2) d) data

/-- `UniversalFileParser._flatten_json` on a dict's items (the `parent_key`
threading of the source). -/
def flattenJson : PyVal → String → List (String × PyVal)
  | .dict kvs, parent => flattenPairs kvs parent
  | .list xs, parent => flattenElems xs 0 parent
  | v, parent => [(parent, v)]
where
  /-- Items contributed by the entries of a dict.  For scalar values the source
  appends `(new_key, v)` directly, which coincides with recursing. -/
  flattenPairs : List (String × PyVal) → String → List (String × PyVal)
    | [], _ => []
    | (k, v) :: rest, parent =>
      let nk := if parent.isEmpty then k else parent ++ "." ++ k
      flattenJson v nk ++ flattenPairs rest parent
  /-- Items contributed by the elements of a list (`[i]`-suffixed keys). -/
  flattenElems : List PyVal → ℕ → String → List (String × PyVal)
    | [], _, _ => []
    | v :: rest, i, parent =>
      let nk := parent ++ "[" ++ toString i ++ "]"
      flattenJson v nk ++ flattenElems rest (i + 1) parent

/-- Python `dict.update`: overwrite existing keys in place, append new keys in
iteration order. -/
def pyDictUpdate (base upd : List (String × PyVal)) : List (String × PyVal) :=
  upd.foldl (fun acc kv =>
    if acc.any (fun p => p.1 == kv.1) then
      acc.map (fun p => if p.1 == kv.1 then (p.1, kv.2) else p)
    else acc ++ [kv]) base

/-- Python `dict(items)`: last value wins, first-occurrence order kept. -/
def pyDictOf (items : List (String × PyVal)) : List (String × PyVal) :=
  pyDictUpdate [] items

/-- The `if/elif` vocabulary dispatch of `_extract_from_json` on one flattened,
lower-cased key (a shorter chain than the table scan: no emission/count/total/
training cases). -/
def jsonVocabAssign (d : ExtractedData) (kl : String) (v : PyVal) : ExtractedData :=
  if strContainsSub kl "energy" || strContainsSub kl "kwh" then
    { d with energy_consumption_kwh := guardAssignQ d.energy_consumption_kwh (parseNumber v) }
  else if strContainsSub kl "water" then
    { d with water_usage_liters := guardAssignQ d.water_usage_liters (parseNumber v) }
  else if strContainsSub kl "waste" then
    { d with waste_generated_kg := guardAssignQ d.waste_generated_kg (parseNumber v) }
  else if strContainsSub kl "carbon" || strContainsSub kl "co2" then
    { d with carbon_emissions_tco2 := guardAssignQ d.carbon_emissions_tco2 (parseNumber v) }
  else if strContainsSub kl "employee" then
    { d with total_employees := guardAssignZ d.total_employees (parseNumber v) }
  else d

/-- `UniversalFileParser._extract_from_json`: flatten, then scan the key-value
map. -/
def extractFromJson (data : ExtractedData) (jsonData : PyVal) : ExtractedData :=
  (pyDictOf (flattenJson jsonData "")).foldl
    (fun d kv => jsonVocabAssign d (pyLower kv.1) kv.2) data

/-- A pandas DataFrame, column-major: column name paired with its cells, in
column order. -/
structure DataFrame where
  cols : List (String × List PyVal)
deriving Repr

/-- Row count of a DataFrame. -/
def dfNumRows (df : DataFrame) : ℕ :=
  df.cols.foldl (fun n c => max n c.2.length) 0

/-- Python `dict(items)` for table records (`None`-able keys): last value wins,
first-occurrence order kept. -/
def tableDictOf (items : List (Option String × PyVal)) : TableRec :=
  items.foldl (fun acc kv =>
    if acc.any (fun p => p.1 == kv.1) then
      acc.map (fun p => if p.1 == kv.1 then (p.1, kv.2) else p)
    else acc ++ [kv]) []

/-- `df.to_dict('records')`: one dict per row mapping column name to cell. -/
def dfRecords (df : DataFrame) : List TableRec :=
  (List.range (dfNumRows df)).map (fun i =>
    tableDictOf (df.cols.map (fun c => (some c.1, c.2.getD i PyVal.none))))

/-- `pd.to_numeric(..., errors='coerce')` on one cell: numbers pass through,
numeric strings parse, everything else coerces to NaN (dropped). -/
def pdToNumeric : PyVal → Option ℚ
  | .int n => some (n : ℚ)
  | .float q => some q
  | .bool b => some (if b then 1 else 0)
  | .str s => pyFloatOfString (pyTrim s)
  | _ => none

/-- `pd.to_numeric(df[col], errors='coerce').sum()` (NaN entries skipped; the
sum of an all-NaN column is 0). -/
def colSum (cells : List PyVal) : ℚ :=
  (cells.filterMap pdToNumeric).foldl (fun a b => a + b) 0

/-- `pd.to_numeric(df[col], errors='coerce').max()` (`none` is the NaN result
of an all-NaN column, for which `value > 0` is false). -/
def colMax (cells : List PyVal) : Option ℚ :=
  (cells.filterMap pdToNumeric).foldl
    (fun m v => match m with
      | some x => some (max x v)
      | none => some v) none

/-- `df[col].isna()` on one cell. -/
def cellIsNa : PyVal → Bool
  | .none => true
  | _ => false

/-- `UniversalFileParser._extract_from_dataframe`: the column-name scan applied
to spreadsheets (sum for energy/water/waste, max for the employee count; note
the guard is `value > 0`, not truthiness). -/
def extractFromDataframe (data : ExtractedData) (df : DataFrame) : ExtractedData :=
  df.cols.foldl (fun d c =>
    let cl := pyLower c.1
    if c.2.all cellIsNa then d
    else if strContainsSub cl "energy" || strContainsSub cl "kwh" then
      let v := colSum c.2
      if decide (0 < v) && !optQTruthy d.energy_consumption_kwh then
        { d with energy_consumption_kwh := some v }
      else d
    else if strContainsSub cl "water" then
      let v := colSum c.2
      if decide (0 < v) && !optQTruthy d.water_usage_liters then
        { d with water_usage_liters := some v }
      else d
    else if strContainsSub cl "waste" then
      let v := colSum c.2
      if decide (0 < v) && !optQTruthy d.waste_generated_kg then
        { d with waste_generated_kg := some v }
      else d
    else if strContainsSub cl "employee" then
      match colMax c.2 with
      | some v =>
        if decide (0 < v) && !optZTruthy d.total_employees then
          { d with total_employees := some (ratTrunc v) }
        else d
      | none => d
    else d) data

/-- An element of an `xml.etree` tree. -/
inductive XmlElem where
  | mk (tag : String) (attribs : List (String × String)) (text : Option String)
      (children : List XmlElem)
deriving Repr

/-- Tag accessor. -/
def XmlElem.tag : XmlElem → String
  | .mk t _ _ _ => t

/-- The child-merging step of `_xml_to_dict`: a repeated tag turns the entry
into a list and appends. -/
def xmlChildInsert (children : List (String × PyVal)) (tag : String) (cd : PyVal) :
    List (String × PyVal) :=
  if children.any (fun p => p.1 == tag) then
    children.map (fun p =>
      if p.1 == tag then
        (p.1, match p.2 with
          | .list xs => .list (xs ++ [cd])
          | old => .list [old, cd])
      else p)
  else children ++ [(tag, cd)]

mutual

/-- `UniversalFileParser._xml_to_dict`: attributes under `@attributes`, stripped
text under `text`, children merged by tag; an element with none of these
collapses to its raw text. -/
def xmlToDict : XmlElem → PyVal
  | .mk _ attribs txt children =>
    let base : List (String × PyVal) :=
      (if attribs.isEmpty then []
       else [("@attributes", PyVal.dict (attribs.map (fun p => (p.1, PyVal.str p.2))))]) ++
      (match txt with
       | some t => if t.isEmpty || (pyTrim t).isEmpty then [] else [("text", PyVal.str (pyTrim t))]
       | none => [])
    let result := pyDictUpdate base (xmlChildrenToDict children [])
    if result.isEmpty then
      match txt with
      | some t => PyVal.str t
      | none => PyVal.none
    else PyVal.dict result

/-- The `for child in element` accumulation loop of `_xml_to_dict`. -/
def xmlChildrenToDict : List XmlElem → List (String × PyVal) → List (String × PyVal)
  | [], acc => acc
  | c :: rest, acc => xmlChildrenToDict rest (xmlChildInsert acc c.tag (xmlToDict c))

end

/-- One pdfplumber page: `extract_text()` and `extract_tables()` results
(table cells may be `None`). -/
structure PdfPage where
  text : Option String := none
  tables : List (List (List (Option String))) := []
deriving Repr

/-- The text half of the pdfplumber page loop: `text += (page_text or "") + "\n"`. -/
def pdfPagesText (pages : List PdfPage) : String :=
  pages.foldl (fun t p => t ++ p.text.getD "" ++ "\n") ""

/-- A pdfplumber table cell as a dict value. -/
def pdfCellVal : Option String → PyVal
  | some s => PyVal.str s
  | none => PyVal.none

/-- The table half of the pdfplumber page loop: each table's first row becomes
headers, later rows are zipped into records when both are non-empty. -/
def pdfPageTables (pages : List PdfPage) : List TableRec :=
  pages.flatMap (fun p => p.tables.flatMap (fun t =>
    if 1 < t.length then
      match t with
      | headers :: rows =>
        rows.filterMap (fun row =>
          if !row.isEmpty && !headers.isEmpty then
            some (tableDictOf ((headers.zip row).map (fun c => (c.1, pdfCellVal c.2))))
          else Option.none)
      | [] => []
    else []))

/-- python-docx tables (`row.cells` texts) converted exactly as in
`_parse_docx`: first row headers, later rows zipped (no emptiness checks). -/
def docxTables (ts : List (List (List String))) : List TableRec :=
  ts.flatMap (fun t =>
    if 1 < t.length then
      match t with
      | headers :: rows =>
        rows.map (fun row =>
          tableDictOf ((headers.zip row).map (fun c => (some c.1, PyVal.str c.2))))
      | [] => []
    else [])

/-- The environment of one `parse_file` call: which optional libraries imported,
and the results of every external call the parsers make.  A field of type
`Except String _` is a library call that either returns or raises. -/
structure ParseEnv where
  now : String := ""
  pdfplumberAvail : Bool := true
  pypdf2Avail : Bool := true
  pandasAvail : Bool := true
  pilAvail : Bool := true
  docxAvail : Bool := true
  plumberPages : Except String (List PdfPage) := .ok []
  pypdf2Pages : Except String (List String) := .ok []
  fileRead : Except String String := .ok ""
  readExcel : Except String (List (String × DataFrame)) := .ok []
  readCsv : Except String DataFrame := .ok ⟨[]⟩
  ocrText : Except String String := .ok ""
  docxDoc : Except String (List String × List (List (List String))) := .ok ([], [])
  jsonLoad : Except String PyVal := .ok .none
  xmlParse : Except String XmlElem := .ok (.mk "" [] Option.none [])
  rx : String → ReMatches := fun _ => {}
  dfToString : DataFrame → String := fun _ => ""
  jsonDumps : PyVal → String := fun _ => ""
  xmlToString : XmlElem → String := fun _ => ""

/-- The `ExtractedData(...)` constructor call opening each `_parse_*` method. -/
def baseResult (env : ParseEnv) (fileName fileType method : String) : ExtractedData :=
  { file_name := fileName
    file_type := fileType
    extraction_date := env.now
    extraction_method := method
    confidence_score := 0 }

/-- The `except` branch of `_parse_pdf`: re-read the file as plain text and run
the text strategy under `extraction_method="text_fallback"`; when even the read
fails, leave the original exception's message in `raw_text` (confidence stays
0). -/
def pdfTextFallback (env : ParseEnv) (data : ExtractedData) (e : String) : ExtractedData :=
  match env.fileRead with
  | .ok text =>
    let d := { data with raw_text := some text, extraction_method := "text_fallback" }
    let d := extractEsgMetrics d text (env.rx text)
    { d with confidence_score := calculateConfidence d }
  | .error _ => { data with raw_text := some ("Error: " ++ e) }

/-- `UniversalFileParser._parse_pdf`: pdfplumber first (text and tables), a
PyPDF2 text pass when pdfplumber left no text, and on a parsing exception the
plain-text fallback.  The source wraps one `try` around both library calls with
a single `except`; here each call that can raise is matched at its site, both
feeding the same handler `pdfTextFallback`. -/
def parsePdf (env : ParseEnv) (fileName : String) : ExtractedData :=
  let data := baseResult env fileName "pdf" "pdf_extraction"
  if !env.pdfplumberAvail && !env.pypdf2Avail then
    { data with raw_text := some "PDF parsing libraries not available" }
  else
    match (if env.pdfplumberAvail then
        env.plumberPages.map (fun pages => (pdfPagesText pages, pdfPageTables pages))
      else .ok ("", [])) with
    | .error e => pdfTextFallback env data e
    | .ok (text, tables) =>
      match (if (pyTrim text).isEmpty && env.pypdf2Avail then
          env.pypdf2Pages.map
            (fun pageTexts => text ++ String.join (pageTexts.map (fun t => t ++ "\n")))
        else .ok text) with
      | .error e => pdfTextFallback env data e
      | .ok fullText =>
        let d := { data with raw_text := some fullText, tables := some tables }
        let d := extractEsgMetrics d fullText (env.rx fullText)
        let d := if !tables.isEmpty then extractFromTables d tables else d
        { d with confidence_score := calculateConfidence d }

/-- `UniversalFileParser._parse_excel`: every sheet's records and textual
rendering, a per-sheet column scan, then the text-pattern pass. -/
def parseExcel (env : ParseEnv) (fileName : String) : ExtractedData :=
  let data := baseResult env fileName "excel" "excel_extraction"
  if !env.pandasAvail then
    { data with raw_text := some "Excel parsing libraries not available" }
  else
    match env.readExcel with
    | .error e => { data with raw_text := some ("Error: " ++ e) }
    | .ok sheets =>
      let allTables := sheets.flatMap (fun s => dfRecords s.2)
      let allText := pyJoinSep "\n\n"
        (sheets.map (fun s => "Sheet: " ++ s.1 ++ "\n" ++ env.dfToString s.2))
      let d := sheets.foldl (fun d s => extractFromDataframe d s.2) data
      let d := { d with tables := some allTables, raw_text := some allText }
      let d := extractEsgMetrics d allText (env.rx allText)
      { d with confidence_score := calculateConfidence d }

/-- `UniversalFileParser._parse_csv`: an encoding-probing read whose decoded
text is never used, then a pandas parse, the column scan and the text-pattern
pass. -/
def parseCsv (env : ParseEnv) (fileName : String) : ExtractedData :=
  let data := baseResult env fileName "csv" "csv_extraction"
  if !env.pandasAvail then
    { data with raw_text := some "CSV parsing libraries not available" }
  else
    match env.fileRead with
    | .error e => { data with raw_text := some ("Error: " ++ e) }
    | .ok _content =>
      match env.readCsv with
      | .error e => { data with raw_text := some ("Error: " ++ e) }
      | .ok df =>
        let d := { data with tables := some (dfRecords df),
                             raw_text := some (env.dfToString df) }
        let d := extractFromDataframe d df
        let d := extractEsgMetrics d (env.dfToString df) (env.rx (env.dfToString df))
        { d with confidence_score := calculateConfidence d }

/-- `UniversalFileParser._parse_image`: OCR text, the text-pattern pass, and
the 0.7 confidence penalty applied to the generic score. -/
def parseImage (env : ParseEnv) (fileName : String) : ExtractedData :=
  let data := baseResult env fileName "image" "ocr_extraction"
  if !env.pilAvail then
    { data with raw_text := some "Image OCR libraries not available" }
  else
    match env.ocrText with
    | .error e => { data with raw_text := some ("Error: " ++ e) }
    | .ok text =>
      let d := { data with raw_text := some text }
      let d := extractEsgMetrics d text (env.rx text)
      { d with confidence_score := calculateConfidence d * (7/10) }

/-- `UniversalFileParser._parse_docx`: paragraph text, header-zipped tables,
both extraction passes. -/
def parseDocx (env : ParseEnv) (fileName : String) : ExtractedData :=
  let data := baseResult env fileName "docx" "docx_extraction"
  if !env.docxAvail then
    { data with raw_text := some "DOCX parsing libraries not available" }
  else
    match env.docxDoc with
    | .error e => { data with raw_text := some ("Error: " ++ e) }
    | .ok doc =>
      let tables := docxTables doc.2
      let text := pyJoinSep "\n" doc.1
      let d := { data with raw_text := some text, tables := some tables }
      let d := extractEsgMetrics d text (env.rx text)
      let d := if !tables.isEmpty then extractFromTables d tables else d
      { d with confidence_score := calculateConfidence d }

/-- `UniversalFileParser._parse_text`: decode bytes (UTF-8, errors ignored) and
run the text-pattern pass. -/
def parseText (env : ParseEnv) (fileName : String) : ExtractedData :=
  let data := baseResult env fileName "text" "text_extraction"
  match env.fileRead with
  | .error e => { data with raw_text := some ("Error: " ++ e) }
  | .ok text =>
    let d := { data with raw_text := some text }
    let d := extractEsgMetrics d text (env.rx text)
    { d with confidence_score := calculateConfidence d }

/-- `UniversalFileParser._parse_doc`: legacy Word files go through the plain
text parser. -/
def parseDoc (env : ParseEnv) (fileName : String) : ExtractedData :=
  parseText env fileName

/-- `UniversalFileParser._parse_json`: load, flatten into key-value pairs, and
map flattened keys onto metric fields. -/
def parseJson (env : ParseEnv) (fileName : String) : ExtractedData :=
  let data := baseResult env fileName "json" "json_extraction"
  match env.jsonLoad with
  | .error e => { data with raw_text := some ("Error: " ++ e) }
  | .ok j =>
    let d := { data with key_value_pairs := some (pyDictOf (flattenJson j "")),
                         raw_text := some (env.jsonDumps j) }
    let d := extractFromJson d j
    { d with confidence_score := calculateConfidence d }

/-- `UniversalFileParser._parse_xml`: parse, convert to a dict, flatten, and
map flattened keys onto metric fields. -/
def parseXml (env : ParseEnv) (fileName : String) : ExtractedData :=
  let data := baseResult env fileName "xml" "xml_extraction"
  match env.xmlParse with
  | .error e => { data with raw_text := some ("Error: " ++ e) }
  | .ok root =>
    let xmlDict := xmlToDict root
    let d := { data with key_value_pairs := some (pyDictOf (flattenJson xmlDict "")),
                         raw_text := some (env.xmlToString root) }
    let d := extractFromJson d xmlDict
    { d with confidence_score := calculateConfidence d }

/-- The dispatch keys of `self.supported_formats`. -/
inductive FileFormat where
  | pdf | excel | csv | docx | doc | image | text | json | xml
deriving DecidableEq, Repr

/-- The extension-to-method dict of `UniversalFileParser.__init__`. -/
def supportedFormats : List (String × FileFormat) :=
  [(".pdf", .pdf), (".xlsx", .excel), (".xls", .excel), (".csv", .csv),
   (".docx", .docx), (".doc", .doc), (".png", .image), (".jpg", .image),
   (".jpeg", .image), (".txt", .text), (".json", .json), (".xml", .xml)]

/-- The final path component, as `pathlib` computes it (separators collapsed,
trailing separators ignored). -/
def pathFinalName (p : String) : String :=
  ((pySplitOn p "/").filter (fun s => !s.isEmpty)).getLastD ""

/-- `Path(file_path).suffix`: from the last dot of the final component, which
must be neither its first nor its last character. -/
def pathSuffix (p : String) : String :=
  let cs := (pathFinalName p).toList
  match (cs.enum.filter (fun ic => ic.2 == '.')).getLast? with
  | some ic => if 0 < ic.1 && ic.1 + 1 < cs.length then String.mk (cs.drop ic.1) else ""
  | none => ""

/-- `Path(file_path).suffix.lower()`. -/
def fileExtension (p : String) : String := pyLower (pathSuffix p)

/-- The parser method bound to a format key. -/
def runFormat : FileFormat → ParseEnv → String → ExtractedData
  | .pdf => parsePdf
  | .excel => parseExcel
  | .csv => parseCsv
  | .docx => parseDocx
  | .doc => parseDoc
  | .image => parseImage
  | .text => parseText
  | .json => parseJson
  | .xml => parseXml

/-- `UniversalFileParser.parse_file` called with a file object: determine the
extension, return the empty `unsupported` result for unknown extensions, else
run the format's parser (each embedded parser is total, so the outer exception
handler that would produce a `file_type="error"` result is never exercised). -/
def parse_file (env : ParseEnv) (filePath : String) : ExtractedData :=
  match (supportedFormats.find? (fun kv => kv.1 == fileExtension filePath)).map
      (fun kv => kv.2) with
  | Option.none => createEmptyResult env.now filePath "unsupported" Option.none
  | some fmt => runFormat fmt env filePath

/-- The `SimpleExtractedData` object of `simple_parser.py` (constructor
defaults: confidence 50.0, method `simple_text_extraction`, all metrics
`None`). -/
structure SimpleExtractedData where
  file_name : String
  file_type : String
  extraction_date : String := ""
  extraction_method : String := "simple_text_extraction"
  confidence_score : ℚ := 50
  energy_consumption_kwh : Option ℚ := none
  water_usage_liters : Option ℚ := none
  waste_generated_kg : Option ℚ := none
  carbon_emissions_tco2 : Option ℚ := none
  renewable_energy_percentage : Option ℚ := none
  total_employees : Option ℤ := none
  training_hours : Option ℚ := none
  safety_incidents : Option ℤ := none
  employee_satisfaction_score : Option ℚ := none
  board_meetings : Option ℤ := none
  compliance_score : Option ℚ := none
  raw_text : Option String := none
  tables : List TableRec := []
deriving Repr

/-- `SimpleFileParser._parse_number`: strip commas, trim, `float()` or `None`
(no currency stripping and no regex fallback here). -/
def simpleParseNum (s : String) : Option ℚ :=
  if s.isEmpty then none
  else pyFloatOfString (pyTrim (pyReplace s "," ""))

/-- The `re.search` results of `SimpleFileParser._extract_simple_metrics` on
one text: the first match's capture per metric, plus all percentage captures. -/
structure SimpleMatches where
  energy : Option String := none
  water : Option String := none
  waste : Option String := none
  carbon : Option String := none
  employees : Option String := none
  training : Option String := none
  percentages : List ℚ := []
deriving Repr

/-- A percentage block of the simple parser: assign the first in-range
percentage when the keyword occurs (no not-already-set guard here). -/
def simplePercentAssign (cur : Option ℚ) (keywordHit : Bool) (lo hi : ℚ)
    (percentages : List ℚ) : Option ℚ :=
  if keywordHit then
    match percentages.find? (fun p => decide (lo ≤ p) && decide (p ≤ hi)) with
    | some p => some p
    | none => cur
  else cur

/-- `SimpleFileParser._extract_simple_metrics`: one `re.search` per metric,
assigning the parse of the first match unconditionally (possibly `None`), the
employee count defaulting to 0 on a failed parse, then the percentage blocks. -/
def extractSimpleMetrics (data : SimpleExtractedData) (text : String)
    (m : SimpleMatches) : SimpleExtractedData :=
  if text.isEmpty then data else
  let tl := pyLower text
  let d := match m.energy with
    | some s => { data with energy_consumption_kwh := simpleParseNum s }
    | none => data
  let d := match m.water with
    | some s => { d with water_usage_liters := simpleParseNum s }
    | none => d
  let d := match m.waste with
    | some s => { d with waste_generated_kg := simpleParseNum s }
    | none => d
  let d := match m.carbon with
    | some s => { d with carbon_emissions_tco2 := simpleParseNum s }
    | none => d
  let d := match m.employees with
    | some s => { d with total_employees := some (ratTrunc ((simpleParseNum s).getD 0)) }
    | none => d
  let d := match m.training with
    | some s => { d with training_hours := simpleParseNum s }
    | none => d
  let hasP := !m.percentages.isEmpty
  let rPct := simplePercentAssign d.renewable_energy_percentage
    (hasP && strContainsSub tl "renewable") 0 100 m.percentages
  let d := { d with renewable_energy_percentage := rPct }
  let sPct := simplePercentAssign d.employee_satisfaction_score
    (hasP && strContainsSub tl "satisfaction") 50 100 m.percentages
  let d := { d with employee_satisfaction_score := sPct }
  let cPct := simplePercentAssign d.compliance_score
    (hasP && strContainsSub tl "compliance") 0 100 m.percentages
  { d with compliance_score := cPct }

/-- The `metrics_found` counter of `_calculate_simple_confidence`: how many of
the 11 candidate metric fields are non-null. -/
def countSimpleMetrics (d : SimpleExtractedData) : ℕ :=
  (if d.energy_consumption_kwh.isSome then 1 else 0) +
  (if d.water_usage_liters.isSome then 1 else 0) +
  (if d.waste_generated_kg.isSome then 1 else 0) +
  (if d.carbon_emissions_tco2.isSome then 1 else 0) +
  (if d.renewable_energy_percentage.isSome then 1 else 0) +
  (if d.total_employees.isSome then 1 else 0) +
  (if d.training_hours.isSome then 1 else 0) +
  (if d.safety_incidents.isSome then 1 else 0) +
  (if d.employee_satisfaction_score.isSome then 1 else 0) +
  (if d.board_meetings.isSome then 1 else 0) +
  (if d.compliance_score.isSome then 1 else 0)

/-- `SimpleFileParser._calculate_simple_confidence`: 11 candidate metric
fields, a text-length base of 30 or 10, 70 points spread over the metric
fraction, capped at 100. -/
def calculateSimpleConfidence (d : SimpleExtractedData) : ℚ :=
  let metricsFound : ℕ := countSimpleMetrics d
  let totalMetrics : ℕ := 11
  let baseConfidence : ℚ :=
    match d.raw_text with
    | some t => if !t.isEmpty && decide (50 < t.length) then 30 else 10
    | none => 10
  let metricConfidence : ℚ := ((metricsFound : ℚ) / (totalMetrics : ℚ)) * 70
  min (baseConfidence + metricConfidence) 100

/-- `file_path.split('/')[-1] if '/' in file_path else file_path`. -/
def simpleFileName (filePath : String) : String :=
  if strContainsSub filePath "/" then (pySplitOn filePath "/").getLastD ""
  else filePath

/-- `file_name.split('.')[-1].lower() if '.' in file_name else 'unknown'`. -/
def simpleExtension (fileName : String) : String :=
  if strContainsSub fileName "." then pyLower ((pySplitOn fileName ".").getLastD "")
  else "unknown"

/-- The environment of one `SimpleFileParser.parse_file` call: the decoded file
read and the `re.search` results. -/
structure SimpleEnv where
  now : String := ""
  fileRead : Except String String := .ok ""
  rx : String → SimpleMatches := fun _ => {}

/-- `SimpleFileParser.parse_file`: build the defaulted object, read the file as
text, extract, score; an exception leaves the constructor's 50.0 confidence and
an `Error:` text. -/
def simpleParseFile (env : SimpleEnv) (filePath : String) : SimpleExtractedData :=
  let fileName := simpleFileName filePath
  let data : SimpleExtractedData :=
    { file_name := fileName, file_type := simpleExtension fileName,
      extraction_date := env.now }
  match env.fileRead with
  | .error e => { data with raw_text := some ("Error: " ++ e) }
  | .ok text =>
    let d := { data with raw_text := some text }
    let d := extractSimpleMetrics d text (env.rx text)
    { d with confidence_score := calculateSimpleConfidence d }

/-- A persisted `ExtractedFileData` row as the aggregator reads it
(`extraction_date` is reduced to an integer ordering key). -/
structure DbRecord where
  extraction_date : ℤ := 0
  confidence_score : ℚ := 0
  processing_status : String := "pending"
  energy_consumption_kwh : Option ℚ := none
  water_usage_liters : Option ℚ := none
  waste_generated_kg : Option ℚ := none
  carbon_emissions_tco2 : Option ℚ := none
  renewable_energy_percentage : Option ℚ := none
  total_employees : Option ℤ := none
  training_hours : Option ℚ := none
  safety_incidents : Option ℤ := none
  employee_satisfaction_score : Option ℚ := none
  compliance_score : Option ℚ := none
  board_meetings : Option ℤ := none
deriving Repr

/-- The metrics dict built by `update_company_metrics_cache`.  An `Option`
field records whether the corresponding key is present in the nested
`environmental`/`social`/`governance` dicts (`none` = key absent). -/
structure CompanyMetrics where
  total_files_processed : ℕ := 0
  average_confidence : ℚ := 0
  env_energy_consumption_kwh : Option ℚ := none
  env_water_usage_liters : Option ℚ := none
  env_waste_generated_kg : Option ℚ := none
  env_carbon_emissions_tco2 : Option ℚ := none
  env_renewable_energy_percentage : Option ℚ := none
  social_total_employees : Option ℤ := none
  social_training_hours_avg : Option ℚ := none
  social_employee_satisfaction_score : Option ℚ := none
  gov_compliance_score : Option ℚ := none
  gov_board_meetings : Option ℤ := none
deriving Repr

/-- One comparison step of the maximal-date scan. -/
def latestStep (best : Option DbRecord) (r : DbRecord) : Option DbRecord :=
  match best with
  | some b => if b.extraction_date < r.extraction_date then some r else some b
  | none => some r

/-- `.order_by('-extraction_date').first()`: a record with the maximal
extraction date.  Ties are broken by the database; the model keeps the
first-listed record among equal dates. -/
def latestRecord (rs : List DbRecord) : Option DbRecord :=
  rs.foldl latestStep none

/-- `.exclude(field__isnull=True).order_by('-extraction_date').first()`. -/
def latestNonNull {α : Type} (get : DbRecord → Option α) (rs : List DbRecord) :
    Option DbRecord :=
  latestRecord (rs.filter (fun r => (get r).isSome))

/-- The `processing_status='completed'` queryset filter. -/
def completedRecords (rs : List DbRecord) : List DbRecord :=
  rs.filter (fun r => r.processing_status == "completed")

/-- `update_company_metrics_cache` of `apps/files/models.py`, as a function of
the company's records: count and mean confidence over completed records,
latest-non-null values for six metrics, mean training hours guarded by Python
truthiness (`if avg_training['avg_training']:`), everything defaulted when no
completed record exists (`if extracted_data.exists():`).  The `average_confidence`
expression `... or 0.0` maps 0 to 0 and is the identity here. -/
def update_company_metrics_cache (records : List DbRecord) : CompanyMetrics :=
  let base : CompanyMetrics := {}
  let ed := completedRecords records
  if ed.isEmpty then base
  else
    let avgConf := (ed.map (fun r => r.confidence_score)).sum / (ed.length : ℚ)
    let eEnergy := match latestNonNull (fun r => r.energy_consumption_kwh) ed with
      | some r => r.energy_consumption_kwh
      | none => Option.none
    let eWater := match latestNonNull (fun r => r.water_usage_liters) ed with
      | some r => r.water_usage_liters
      | none => Option.none
    let eWaste := match latestNonNull (fun r => r.waste_generated_kg) ed with
      | some r => r.waste_generated_kg
      | none => Option.none
    let eCarbon := match latestNonNull (fun r => r.carbon_emissions_tco2) ed with
      | some r => r.carbon_emissions_tco2
      | none => Option.none
    let sEmployees := match latestNonNull (fun r => r.total_employees) ed with
      | some r => r.total_employees
      | none => Option.none
    let tvals := (ed.filter (fun r => r.training_hours.isSome)).filterMap
      (fun r => r.training_hours)
    let sTraining : Option ℚ :=
      if tvals.isEmpty then Option.none
      else
        let avg := tvals.sum / (tvals.length : ℚ)
        if avg != 0 then some avg else Option.none
    let gCompliance := match latestNonNull (fun r => r.compliance_score) ed with
      | some r => r.compliance_score
      | none => Option.none
    { base with
      total_files_processed := ed.length
      average_confidence := avgConf
      env_energy_consumption_kwh := eEnergy
      env_water_usage_liters := eWater
      env_waste_generated_kg := eWaste
      env_carbon_emissions_tco2 := eCarbon
      social_total_employees := sEmployees
      social_training_hours_avg := sTraining
      gov_compliance_score := gCompliance }

/-- A task attachment as the management command sees it. -/
structure Attachment where
  id : ℕ
  company_id : ℕ := 0
deriving Repr, DecidableEq

/-- The slice of an `ExtractedFileData` row that the batch command writes. -/
structure CmdRecord where
  task_attachment_id : ℕ
  processing_status : String
  confidence_score : ℚ := 0
  error_message : String := ""
deriving Repr, DecidableEq

/-- The queryset of `process_existing_files.Command.handle`: optional company
filter (`if options['company_id']:` — a zero id is falsy), then, without
`--force`, exclusion of every attachment that has an `ExtractedFileData` row of
ANY status (`processed_ids` carries no status filter). -/
def selectForProcessing (force : Bool) (companyId : Option ℕ)
    (atts : List Attachment) (recs : List CmdRecord) : List Attachment :=
  let qs := match companyId with
    | some cid =>
      if cid != 0 then atts.filter (fun a => a.company_id == cid) else atts
    | none => atts
  if force then qs
  else qs.filter (fun a => !recs.any (fun r => r.task_attachment_id == a.id))

/-- The record an attachment's processing leaves behind: the command creates
the row in `processing` status and finishes it as `completed` (with the
parser's confidence) or `failed` (with the exception message).  `outcome`
models the deterministic parse of the attachment's bytes. -/
def finishedRec (outcome : ℕ → Except String ℚ) (a : Attachment) : CmdRecord :=
  match outcome a.id with
  | .ok conf =>
    { task_attachment_id := a.id, processing_status := "completed",
      confidence_score := conf }
  | .error e =>
    { task_attachment_id := a.id, processing_status := "failed", error_message := e }

/-- One iteration of the command's loop: under `--force` delete every existing
row for the attachment first; without it, creating a second row for an
attachment violates the one-to-one constraint, the exception is caught and the
store is left unchanged. -/
def processOne (outcome : ℕ → Except String ℚ) (force : Bool)
    (recs : List CmdRecord) (a : Attachment) : List CmdRecord :=
  if force then
    (recs.filter (fun r => r.task_attachment_id != a.id)) ++ [finishedRec outcome a]
  else if recs.any (fun r => r.task_attachment_id == a.id) then recs
  else recs ++ [finishedRec outcome a]

/-- `Command.handle` of `process_existing_files.py`, as a transformation of the
`ExtractedFileData` store (the queryset is evaluated once, before the loop). -/
def processExistingFiles (force : Bool) (companyId : Option ℕ)
    (outcome : ℕ → Except String ℚ) (atts : List Attachment)
    (recs : List CmdRecord) : List CmdRecord :=
  (selectForProcessing force companyId atts recs).foldl (processOne outcome force) recs

/-- The confidence formula exactly as claim C2 words it (spec comparator, to be
measured against `calculateConfidence`): non-null count over the 7 checked
fields, the two half-point bonuses, divided by 8, times 100, clamped at 100. -/
def specConfidenceFormula (d : ExtractedData) : ℚ :=
  let count : ℚ :=
    (if d.energy_consumption_kwh.isSome then 1 else 0) +
    (if d.water_usage_liters.isSome then 1 else 0) +
    (if d.waste_generated_kg.isSome then 1 else 0) +
    (if d.carbon_emissions_tco2.isSome then 1 else 0) +
    (if d.total_employees.isSome then 1 else 0) +
    (if d.training_hours.isSome then 1 else 0) +
    (if d.compliance_score.isSome then 1 else 0)
  let textBonus : ℚ :=
    match d.raw_text with
    | some t => if decide (100 < t.length) then 1/2 else 0
    | none => 0
  let tableBonus : ℚ :=
    match d.tables with
    | some ts => if !ts.isEmpty then 1/2 else 0
    | none => 0
  min ((count + textBonus + tableBonus) / 8 * 100) 100

/-- The simple-parser confidence exactly as claim C10 words it (spec
comparator): base 10 when the raw text is at most 50 characters AND no metric
was found, base 30 otherwise, plus the 70-point metric fraction, capped at
100. -/
def claimedSimpleConfidence (d : SimpleExtractedData) : ℚ :=
  let metricsFound : ℕ := countSimpleMetrics d
  let rawLen : ℕ := match d.raw_text with
    | some t => t.length
    | none => 0
  let base : ℚ := if rawLen ≤ 50 && metricsFound == 0 then 10 else 30
  min (base + ((metricsFound : ℚ) / 11) * 70) 100

/-- Fold invariance: a property preserved by each step is preserved by the
whole fold. -/
theorem foldlPreserve {α β : Type _} {P : β → Prop} {f : β → α → β}
    (hf : ∀ b a, P b → P (f b a)) :
    ∀ (l : List α) {b : β}, P b → P (l.foldl f b)
  | [], _, hb => hb
  | a :: l, b, hb => foldlPreserve hf l (hf b a hb)

/-- A guarded float assignment never touches a field already holding a nonzero
value (`not data.field` is false). -/
theorem guardAssignQ_of_nonzero {v : ℚ} (hv : v ≠ 0) (pv : Option ℚ) :
    guardAssignQ (some v) pv = some v := by
  simp [guardAssignQ, optQTruthy, hv]

/-- A candidate parsing to exactly 0 is skipped by the truthiness guard. -/
theorem guardAssignQ_zero_noop (cur : Option ℚ) : guardAssignQ cur (some 0) = cur := by
  simp [guardAssignQ, optQTruthy]

/-- A guarded float assignment can never store an exact zero. -/
theorem guardAssignQ_ne_zero {cur : Option ℚ} (pv : Option ℚ) (h : cur ≠ some 0) :
    guardAssignQ cur pv ≠ some 0 := by
  unfold guardAssignQ
  split
  · next hcond =>
    cases pv with
    | none => simp [optQTruthy] at hcond
    | some q =>
      simp only [optQTruthy, Bool.and_eq_true, bne_iff_ne, ne_eq] at hcond
      simp [hcond.1]
  · exact h

/-- The integer analogue of `guardAssignQ_of_nonzero`. -/
theorem guardAssignZ_of_nonzero {n : ℤ} (hn : n ≠ 0) (pv : Option ℚ) :
    guardAssignZ (some n) pv = some n := by
  cases pv with
  | none => rfl
  | some q => simp [guardAssignZ, optZTruthy, hn]

/-- The integer analogue of `guardAssignQ_zero_noop`. -/
theorem guardAssignZ_zero_noop (cur : Option ℤ) : guardAssignZ cur (some 0) = cur := by
  simp [guardAssignZ]

/-- The per-metric text scan never touches a field already holding a nonzero
value. -/
theorem scanAssignQ_of_nonzero {v : ℚ} (hv : v ≠ 0) (l : List String) :
    scanAssignQ (some v) l = some v := by
  induction l with
  | nil => rfl
  | cons c rest ih =>
    show List.foldl _ _ (c :: rest) = _
    rw [List.foldl_cons, guardAssignQ_of_nonzero hv]
    exact ih

/-- The per-metric text scan never stores an exact zero. -/
theorem scanAssignQ_ne_zero {cur : Option ℚ} (l : List String) (h : cur ≠ some 0) :
    scanAssignQ cur l ≠ some 0 :=
  foldlPreserve (P := fun acc => acc ≠ some 0)
    (fun _ a hb => guardAssignQ_ne_zero (parseNumber (.str a)) hb) l h

/-- The integer employee scan never touches a nonzero value. -/
theorem scanAssignZ_of_nonzero {n : ℤ} (hn : n ≠ 0) (l : List String) :
    scanAssignZ (some n) l = some n := by
  induction l with
  | nil => rfl
  | cons c rest ih =>
    show List.foldl _ _ (c :: rest) = _
    rw [List.foldl_cons, guardAssignZ_of_nonzero hn]
    exact ih

/-- The first candidate whose parse is truthy, exactly as the claim's
"first match wins" reads on one metric's candidate list. -/
def firstNonzeroParse (cands : List String) : Option ℚ :=
  (cands.filterMap (fun s =>
    match parseNumber (.str s) with
    | some v => if v != 0 then some v else Option.none
    | none => Option.none)).head?

/-- On a still-null field the text scan returns the first candidate whose parse
is nonzero: earlier zero-parsing candidates neither fill the field nor block
later ones. -/
theorem scanAssignQ_none_eq_first (l : List String) :
    scanAssignQ Option.none l = firstNonzeroParse l := by
  induction l with
  | nil => rfl
  | cons c rest ih =>
    have hstep : scanAssignQ Option.none (c :: rest) =
        scanAssignQ (guardAssignQ Option.none (parseNumber (.str c))) rest := rfl
    rw [hstep]
    cases hp : parseNumber (.str c) with
    | none =>
      have hg : guardAssignQ Option.none Option.none = Option.none := rfl
      rw [hg, ih]
      simp only [firstNonzeroParse, List.filterMap_cons, hp]
    | some v =>
      by_cases hv : v = 0
      · subst hv
        rw [guardAssignQ_zero_noop, ih]
        simp only [firstNonzeroParse, List.filterMap_cons, hp]
        norm_num
      · have hg : guardAssignQ Option.none (some v) = some v := by
          simp [guardAssignQ, optQTruthy, hv]
        rw [hg, scanAssignQ_of_nonzero hv]
        simp only [firstNonzeroParse, List.filterMap_cons, hp]
        simp [hv]

/-- A percentage block either leaves the field alone or assigns a percentage
inside its scanned range. -/
theorem percentAssign_range (cur : Option ℚ) (cond : Bool) (lo hi : ℚ)
    (ps : List ℚ) :
    percentAssign cur cond lo hi ps = cur ∨
    ∃ p, percentAssign cur cond lo hi ps = some p ∧ lo ≤ p ∧ p ≤ hi := by
  unfold percentAssign
  split
  · cases hf : ps.find? (fun p => decide (lo ≤ p) && decide (p ≤ hi)) with
    | none => left; rfl
    | some p =>
      right
      refine ⟨p, rfl, ?_⟩
      have := List.find?_some hf
      simpa using this
  · left; rfl

/-- The five float metric fields populated through the shared number parser. -/
inductive NumField where
  | energy | water | waste | carbon | training
deriving DecidableEq, Repr

/-- Field accessor for `NumField`. -/
def nfGet : NumField → ExtractedData → Option ℚ
  | .energy => fun d => d.energy_consumption_kwh
  | .water => fun d => d.water_usage_liters
  | .waste => fun d => d.waste_generated_kg
  | .carbon => fun d => d.carbon_emissions_tco2
  | .training => fun d => d.training_hours

/-- The text-pattern strategy leaves all non-metric fields untouched. -/
theorem extractEsgMetrics_meta (d : ExtractedData) (t : String) (m : ReMatches) :
    (extractEsgMetrics d t m).file_name = d.file_name ∧
    (extractEsgMetrics d t m).file_type = d.file_type ∧
    (extractEsgMetrics d t m).extraction_date = d.extraction_date ∧
    (extractEsgMetrics d t m).extraction_method = d.extraction_method ∧
    (extractEsgMetrics d t m).confidence_score = d.confidence_score ∧
    (extractEsgMetrics d t m).raw_text = d.raw_text ∧
    (extractEsgMetrics d t m).tables = d.tables ∧
    (extractEsgMetrics d t m).key_value_pairs = d.key_value_pairs := by
  simp only [extractEsgMetrics]
  split_ifs <;> simp

/-- The text-pattern strategy never overwrites a nonzero number-parsed field. -/
theorem extractEsgMetrics_nonzero_preserved (f : NumField) (d : ExtractedData)
    (t : String) (m : ReMatches) {v : ℚ} (hv : v ≠ 0) (h : nfGet f d = some v) :
    nfGet f (extractEsgMetrics d t m) = some v := by
  cases f <;>
    (simp only [nfGet] at h ⊢
     simp only [extractEsgMetrics]
     split_ifs <;> simp [h, scanAssignQ_of_nonzero hv])

/-- The text-pattern strategy never overwrites a nonzero employee count. -/
theorem extractEsgMetrics_employees_nonzero (d : ExtractedData) (t : String)
    (m : ReMatches) {n : ℤ} (hn : n ≠ 0) (h : d.total_employees = some n) :
    (extractEsgMetrics d t m).total_employees = some n := by
  simp only [extractEsgMetrics]
  split_ifs <;> simp [h, scanAssignZ_of_nonzero hn]

/-- The text-pattern strategy never stores an exact zero in a number-parsed
field. -/
theorem extractEsgMetrics_ne_zero (f : NumField) (d : ExtractedData) (t : String)
    (m : ReMatches) (h : nfGet f d ≠ some 0) :
    nfGet f (extractEsgMetrics d t m) ≠ some 0 := by
  cases f <;>
    (simp only [nfGet] at h ⊢
     simp only [extractEsgMetrics]
     split_ifs <;> first
       | exact h
       | exact scanAssignQ_ne_zero _ h)

/-- One table-cell dispatch step never overwrites a nonzero number-parsed
field. -/
theorem tableVocabAssign_nonzero_preserved (f : NumField) (d : ExtractedData)
    (kl : String) (pv : PyVal) {v : ℚ} (hv : v ≠ 0) (h : nfGet f d = some v) :
    nfGet f (tableVocabAssign d kl pv) = some v := by
  cases f <;>
    (simp only [nfGet] at h ⊢
     simp only [tableVocabAssign]
     split_ifs <;> simp [h, guardAssignQ_of_nonzero hv])

/-- One table-cell dispatch step never overwrites a nonzero employee count. -/
theorem tableVocabAssign_employees_nonzero (d : ExtractedData) (kl : String)
    (pv : PyVal) {n : ℤ} (hn : n ≠ 0) (h : d.total_employees = some n) :
    (tableVocabAssign d kl pv).total_employees = some n := by
  simp only [tableVocabAssign]
  split_ifs <;> simp [h, guardAssignZ_of_nonzero hn]

/-- One table-cell dispatch step never stores an exact zero. -/
theorem tableVocabAssign_ne_zero (f : NumField) (d : ExtractedData) (kl : String)
    (pv : PyVal) (h : nfGet f d ≠ some 0) :
    nfGet f (tableVocabAssign d kl pv) ≠ some 0 := by
  cases f <;>
    (simp only [nfGet] at h ⊢
     simp only [tableVocabAssign]
     split_ifs <;> first
       | exact h
       | exact guardAssignQ_ne_zero _ h)

/-- One table-cell dispatch step leaves the non-metric fields untouched. -/
theorem tableVocabAssign_meta (d : ExtractedData) (kl : String) (pv : PyVal) :
    (tableVocabAssign d kl pv).file_type = d.file_type ∧
    (tableVocabAssign d kl pv).extraction_method = d.extraction_method ∧
    (tableVocabAssign d kl pv).raw_text = d.raw_text ∧
    (tableVocabAssign d kl pv).tables = d.tables := by
  simp only [tableVocabAssign]
  split_ifs <;> simp

/-- The table-scan strategy never overwrites a nonzero number-parsed field. -/
theorem extractFromTables_nonzero_preserved (f : NumField) (d : ExtractedData)
    (ts : List TableRec) {v : ℚ} (hv : v ≠ 0) (h : nfGet f d = some v) :
    nfGet f (extractFromTables d ts) = some v := by
  unfold extractFromTables
  refine foldlPreserve (P := fun x => nfGet f x = some v) (fun b row hb => ?_) ts h
  refine foldlPreserve (P := fun x => nfGet f x = some v) (fun b kv hb => ?_) row hb
  dsimp only
  split_ifs
  · exact hb
  · exact tableVocabAssign_nonzero_preserved f b _ kv.2 hv hb

/-- The table-scan strategy never overwrites a nonzero employee count. -/
theorem extractFromTables_employees_nonzero (d : ExtractedData)
    (ts : List TableRec) {n : ℤ} (hn : n ≠ 0) (h : d.total_employees = some n) :
    (extractFromTables d ts).total_employees = some n := by
  unfold extractFromTables
  refine foldlPreserve (P := fun x : ExtractedData => x.total_employees = some n) (fun b row hb => ?_) ts h
  refine foldlPreserve (P := fun x : ExtractedData => x.total_employees = some n) (fun b kv hb => ?_) row hb
  dsimp only
  split_ifs
  · exact hb
  · exact tableVocabAssign_employees_nonzero b _ kv.2 hn hb

/-- The table-scan strategy never stores an exact zero. -/
theorem extractFromTables_ne_zero (f : NumField) (d : ExtractedData)
    (ts : List TableRec) (h : nfGet f d ≠ some 0) :
    nfGet f (extractFromTables d ts) ≠ some 0 := by
  unfold extractFromTables
  refine foldlPreserve (P := fun x => nfGet f x ≠ some 0) (fun b row hb => ?_) ts h
  refine foldlPreserve (P := fun x => nfGet f x ≠ some 0) (fun b kv hb => ?_) row hb
  dsimp only
  split_ifs
  · exact hb
  · exact tableVocabAssign_ne_zero f b _ kv.2 hb

/-- The table-scan strategy leaves the non-metric fields untouched. -/
theorem extractFromTables_meta (d : ExtractedData) (ts : List TableRec) :
    (extractFromTables d ts).file_type = d.file_type ∧
    (extractFromTables d ts).extraction_method = d.extraction_method ∧
    (extractFromTables d ts).raw_text = d.raw_text ∧
    (extractFromTables d ts).tables = d.tables := by
  unfold extractFromTables
  refine foldlPreserve
    (P := fun x : ExtractedData => x.file_type = d.file_type ∧
      x.extraction_method = d.extraction_method ∧
      x.raw_text = d.raw_text ∧ x.tables = d.tables) (fun b row hb => ?_) ts ⟨rfl, rfl, rfl, rfl⟩
  refine foldlPreserve
    (P := fun x : ExtractedData => x.file_type = d.file_type ∧
      x.extraction_method = d.extraction_method ∧
      x.raw_text = d.raw_text ∧ x.tables = d.tables) (fun b kv hb => ?_) row hb
  dsimp only
  split_ifs
  · exact hb
  · have hm := tableVocabAssign_meta b (pyLower (pyKeyStr kv.1)) kv.2
    exact ⟨hm.1.trans hb.1, hm.2.1.trans hb.2.1, hm.2.2.1.trans hb.2.2.1,
      hm.2.2.2.trans hb.2.2.2⟩

/-- One flattened-key dispatch step never overwrites a nonzero number-parsed
field. -/
theorem jsonVocabAssign_nonzero_preserved (f : NumField) (d : ExtractedData)
    (kl : String) (pv : PyVal) {v : ℚ} (hv : v ≠ 0) (h : nfGet f d = some v) :
    nfGet f (jsonVocabAssign d kl pv) = some v := by
  cases f <;>
    (simp only [nfGet] at h ⊢
     simp only [jsonVocabAssign]
     split_ifs <;> simp [h, guardAssignQ_of_nonzero hv])

/-- One flattened-key dispatch step never overwrites a nonzero employee
count. -/
theorem jsonVocabAssign_employees_nonzero (d : ExtractedData) (kl : String)
    (pv : PyVal) {n : ℤ} (hn : n ≠ 0) (h : d.total_employees = some n) :
    (jsonVocabAssign d kl pv).total_employees = some n := by
  simp only [jsonVocabAssign]
  split_ifs <;> simp [h, guardAssignZ_of_nonzero hn]

/-- One flattened-key dispatch step never stores an exact zero. -/
theorem jsonVocabAssign_ne_zero (f : NumField) (d : ExtractedData) (kl : String)
    (pv : PyVal) (h : nfGet f d ≠ some 0) :
    nfGet f (jsonVocabAssign d kl pv) ≠ some 0 := by
  cases f <;>
    (simp only [nfGet] at h ⊢
     simp only [jsonVocabAssign]
     split_ifs <;> first
       | exact h
       | exact guardAssignQ_ne_zero _ h)

/-- One flattened-key dispatch step leaves the non-metric fields untouched. -/
theorem jsonVocabAssign_meta (d : ExtractedData) (kl : String) (pv : PyVal) :
    (jsonVocabAssign d kl pv).file_type = d.file_type ∧
    (jsonVocabAssign d kl pv).extraction_method = d.extraction_method ∧
    (jsonVocabAssign d kl pv).raw_text = d.raw_text ∧
    (jsonVocabAssign d kl pv).tables = d.tables ∧
    (jsonVocabAssign d kl pv).key_value_pairs = d.key_value_pairs := by
  simp only [jsonVocabAssign]
  split_ifs <;> simp

/-- The key-value strategy never overwrites a nonzero number-parsed field. -/
theorem extractFromJson_nonzero_preserved (f : NumField) (d : ExtractedData)
    (j : PyVal) {v : ℚ} (hv : v ≠ 0) (h : nfGet f d = some v) :
    nfGet f (extractFromJson d j) = some v := by
  unfold extractFromJson
  refine foldlPreserve (P := fun x => nfGet f x = some v) (fun b kv hb => ?_) _ h
  exact jsonVocabAssign_nonzero_preserved f b _ kv.2 hv hb

/-- The key-value strategy never overwrites a nonzero employee count. -/
theorem extractFromJson_employees_nonzero (d : ExtractedData) (j : PyVal)
    {n : ℤ} (hn : n ≠ 0) (h : d.total_employees = some n) :
    (extractFromJson d j).total_employees = some n := by
  unfold extractFromJson
  refine foldlPreserve (P := fun x : ExtractedData => x.total_employees = some n)
    (fun b kv hb => ?_) _ h
  exact jsonVocabAssign_employees_nonzero b _ kv.2 hn hb

/-- The key-value strategy never stores an exact zero. -/
theorem extractFromJson_ne_zero (f : NumField) (d : ExtractedData) (j : PyVal)
    (h : nfGet f d ≠ some 0) :
    nfGet f (extractFromJson d j) ≠ some 0 := by
  unfold extractFromJson
  refine foldlPreserve (P := fun x => nfGet f x ≠ some 0) (fun b kv hb => ?_) _ h
  exact jsonVocabAssign_ne_zero f b _ kv.2 hb

/-- The key-value strategy leaves the non-metric fields untouched. -/
theorem extractFromJson_meta (d : ExtractedData) (j : PyVal) :
    (extractFromJson d j).file_type = d.file_type ∧
    (extractFromJson d j).extraction_method = d.extraction_method ∧
    (extractFromJson d j).raw_text = d.raw_text ∧
    (extractFromJson d j).tables = d.tables ∧
    (extractFromJson d j).key_value_pairs = d.key_value_pairs := by
  unfold extractFromJson
  refine foldlPreserve
    (P := fun x : ExtractedData => x.file_type = d.file_type ∧
      x.extraction_method = d.extraction_method ∧ x.raw_text = d.raw_text ∧
      x.tables = d.tables ∧ x.key_value_pairs = d.key_value_pairs)
    (fun b kv hb => ?_) _ ⟨rfl, rfl, rfl, rfl, rfl⟩
  have hm := jsonVocabAssign_meta b (pyLower kv.1) kv.2
  exact ⟨hm.1.trans hb.1, hm.2.1.trans hb.2.1, hm.2.2.1.trans hb.2.2.1,
    hm.2.2.2.1.trans hb.2.2.2.1, hm.2.2.2.2.trans hb.2.2.2.2⟩

/-- The spreadsheet column scan leaves the non-metric fields untouched. -/
theorem extractFromDataframe_meta (d : ExtractedData) (df : DataFrame) :
    (extractFromDataframe d df).file_type = d.file_type ∧
    (extractFromDataframe d df).extraction_method = d.extraction_method ∧
    (extractFromDataframe d df).raw_text = d.raw_text ∧
    (extractFromDataframe d df).tables = d.tables := by
  unfold extractFromDataframe
  refine foldlPreserve
    (P := fun x : ExtractedData => x.file_type = d.file_type ∧
      x.extraction_method = d.extraction_method ∧
      x.raw_text = d.raw_text ∧ x.tables = d.tables)
    (fun b c hb => ?_) _ ⟨rfl, rfl, rfl, rfl⟩
  dsimp only
  split_ifs <;> first
    | exact hb
    | (split <;> (try split_ifs) <;> exact hb)

/-- `_parse_pdf` always reports `file_type="pdf"`. -/
theorem parsePdf_file_type (env : ParseEnv) (fn : String) :
    (parsePdf env fn).file_type = "pdf" := by
  unfold parsePdf pdfTextFallback
  repeat' split
  all_goals
    simp only [(extractFromTables_meta _ _).1, (extractEsgMetrics_meta _ _ _).2.1]
  all_goals rfl

/-- `_parse_excel` always reports `file_type="excel"`. -/
theorem parseExcel_file_type (env : ParseEnv) (fn : String) :
    (parseExcel env fn).file_type = "excel" := by
  unfold parseExcel
  repeat' split
  all_goals
    simp only [(extractEsgMetrics_meta _ _ _).2.1]
  all_goals
    first
      | rfl
      | exact foldlPreserve
          (P := fun x : ExtractedData => x.file_type = "excel")
          (fun (b : ExtractedData) (s : String × DataFrame) hb =>
            ((extractFromDataframe_meta b s.2).1).trans hb) _ rfl

/-- `_parse_csv` always reports `file_type="csv"`. -/
theorem parseCsv_file_type (env : ParseEnv) (fn : String) :
    (parseCsv env fn).file_type = "csv" := by
  unfold parseCsv
  repeat' split
  all_goals
    simp only [(extractEsgMetrics_meta _ _ _).2.1, (extractFromDataframe_meta _ _).1]
  all_goals rfl

/-- `_parse_image` always reports `file_type="image"`. -/
theorem parseImage_file_type (env : ParseEnv) (fn : String) :
    (parseImage env fn).file_type = "image" := by
  unfold parseImage
  repeat' split
  all_goals
    simp only [(extractEsgMetrics_meta _ _ _).2.1]
  all_goals rfl

/-- `_parse_docx` always reports `file_type="docx"`. -/
theorem parseDocx_file_type (env : ParseEnv) (fn : String) :
    (parseDocx env fn).file_type = "docx" := by
  unfold parseDocx
  repeat' split
  all_goals
    simp only [apply_ite (fun d : ExtractedData => d.file_type),
      (extractFromTables_meta _ _).1, (extractEsgMetrics_meta _ _ _).2.1, ite_self]
  all_goals rfl

/-- `_parse_text` always reports `file_type="text"`. -/
theorem parseText_file_type (env : ParseEnv) (fn : String) :
    (parseText env fn).file_type = "text" := by
  unfold parseText
  repeat' split
  all_goals
    simp only [(extractEsgMetrics_meta _ _ _).2.1]
  all_goals rfl

/-- `_parse_json` always reports `file_type="json"`. -/
theorem parseJson_file_type (env : ParseEnv) (fn : String) :
    (parseJson env fn).file_type = "json" := by
  unfold parseJson
  repeat' split
  all_goals
    simp only [(extractFromJson_meta _ _).1]
  all_goals rfl

/-- `_parse_xml` always reports `file_type="xml"`. -/
theorem parseXml_file_type (env : ParseEnv) (fn : String) :
    (parseXml env fn).file_type = "xml" := by
  unfold parseXml
  repeat' split
  all_goals
    simp only [(extractFromJson_meta _ _).1]
  all_goals rfl

/-- The expected `file_type` tag of each dispatch key (`.doc` is handled by the
text parser and tagged `text`). -/
def expectedTag : FileFormat → String
  | .pdf => "pdf"
  | .excel => "excel"
  | .csv => "csv"
  | .docx => "docx"
  | .doc => "text"
  | .image => "image"
  | .text => "text"
  | .json => "json"
  | .xml => "xml"

/-- Every metric field of an `ExtractedData` is null. -/
def allMetricFieldsNull (d : ExtractedData) : Prop :=
  d.energy_consumption_kwh = Option.none ∧
  d.water_usage_liters = Option.none ∧
  d.waste_generated_kg = Option.none ∧
  d.carbon_emissions_tco2 = Option.none ∧
  d.renewable_energy_percentage = Option.none ∧
  d.total_employees = Option.none ∧
  d.training_hours = Option.none ∧
  d.safety_incidents = Option.none ∧
  d.employee_satisfaction_score = Option.none ∧
  d.diversity_rate = Option.none ∧
  d.board_meetings = Option.none ∧
  d.compliance_score = Option.none ∧
  d.audit_findings = Option.none ∧
  d.policy_updates = Option.none

/-- C1: `parse_file` is total on every filename and file environment.  An
extension outside the dispatch table yields the empty result with
`file_type="unsupported"`, `extraction_method="none"`, confidence 0 and every
metric field null; a supported extension yields a result tagged with the
format's expected tag (or `"error"`, which the embedded parsers, being total,
never produce). -/
theorem parse_file_unsupported_and_tagged (env : ParseEnv) (filePath : String) :
    (supportedFormats.find? (fun kv => kv.1 == fileExtension filePath) = Option.none →
      (parse_file env filePath).file_type = "unsupported" ∧
      (parse_file env filePath).extraction_method = "none" ∧
      (parse_file env filePath).confidence_score = 0 ∧
      allMetricFieldsNull (parse_file env filePath)) ∧
    (∀ ext fmt,
      supportedFormats.find? (fun kv => kv.1 == fileExtension filePath) =
        some (ext, fmt) →
      (parse_file env filePath).file_type = expectedTag fmt ∨
      (parse_file env filePath).file_type = "error") := by
  constructor
  · intro h
    unfold parse_file
    rw [h]
    exact ⟨rfl, rfl, rfl, rfl, rfl, rfl, rfl, rfl, rfl, rfl, rfl, rfl, rfl,
      rfl, rfl, rfl, rfl⟩
  · intro ext fmt h
    left
    unfold parse_file
    rw [h]
    cases fmt
    · exact parsePdf_file_type env filePath
    · exact parseExcel_file_type env filePath
    · exact parseCsv_file_type env filePath
    · exact parseDocx_file_type env filePath
    · exact parseText_file_type env filePath
    · exact parseImage_file_type env filePath
    · exact parseText_file_type env filePath
    · exact parseJson_file_type env filePath
    · exact parseXml_file_type env filePath

/-- Witness for C1 at the concrete inputs `report.bin` (unsupported) and
`report.xlsx` (supported, tagged `excel`). -/
theorem parse_file_unsupported_and_tagged_witness :
    (parse_file {} "report.bin").file_type = "unsupported" ∧
    ((parse_file {} "report.xlsx").file_type = expectedTag FileFormat.excel ∨
      (parse_file {} "report.xlsx").file_type = "error") :=
  ⟨((parse_file_unsupported_and_tagged {} "report.bin").1 (by decide)).1,
   (parse_file_unsupported_and_tagged {} "report.xlsx").2 ".xlsx" FileFormat.excel
     (by decide)⟩

/-- C2: the confidence score is exactly the claimed closed formula — the
non-null count over the 7 checked fields plus the two half-point bonuses,
divided by 8, times 100, clamped at 100 — and the image parser multiplies that
formula's result by 0.7 (on the OCR success path; error paths leave the
constructor's 0). -/
theorem confidence_matches_claimed_formula (d : ExtractedData) (env : ParseEnv)
    (fileName text : String) (hpil : env.pilAvail = true)
    (hocr : env.ocrText = .ok text) :
    calculateConfidence d = specConfidenceFormula d ∧
    (parseImage env fileName).confidence_score =
      specConfidenceFormula (parseImage env fileName) * (7 / 10) := by
  have heq : ∀ x : ExtractedData, calculateConfidence x = specConfidenceFormula x := by
    intro x
    unfold calculateConfidence specConfidenceFormula rawTextLongBonus tablesBonus
    have hrt : (if (match x.raw_text with
          | some t => !t.isEmpty && decide (100 < t.length)
          | none => false) = true then (1:ℚ)/2 else 0) =
        (match x.raw_text with
          | some t => if decide (100 < t.length) = true then (1:ℚ)/2 else 0
          | none => 0) := by
      cases hx : x.raw_text with
      | none => simp
      | some t =>
        by_cases he : t.isEmpty
        · have ht := (String.isEmpty_iff t).mp he
          subst ht
          simp
        · simp [he]
    have htb : (if (match x.tables with
          | some ts => !ts.isEmpty && decide (0 < ts.length)
          | none => false) = true then (1:ℚ)/2 else 0) =
        (match x.tables with
          | some ts => if !ts.isEmpty then (1:ℚ)/2 else 0
          | none => 0) := by
      cases hx : x.tables with
      | none => simp
      | some ts => cases ts <;> simp
    rw [hrt, htb]
    cases x.raw_text <;> cases x.tables <;> (norm_num; try ring_nf)
  refine ⟨heq d, ?_⟩
  unfold parseImage
  rw [hpil, hocr]
  simp only []
  rw [heq]
  rfl

/-- A minimal concrete `ExtractedData` used by witnesses. -/
def emptyTextData : ExtractedData :=
  { file_name := "notes.txt", file_type := "text", extraction_date := "",
    extraction_method := "text_extraction", confidence_score := 0 }

/-- A concrete environment whose OCR call succeeds. -/
def envOcrOk : ParseEnv := { ocrText := .ok "scan" }

/-- Witness for C2 at a concrete record and a concrete OCR environment. -/
theorem confidence_matches_claimed_formula_witness :
    calculateConfidence emptyTextData = specConfidenceFormula emptyTextData ∧
    (parseImage envOcrOk "chart.png").confidence_score =
      specConfidenceFormula (parseImage envOcrOk "chart.png") * (7 / 10) :=
  confidence_matches_claimed_formula emptyTextData envOcrOk "chart.png" "scan" rfl rfl

/-- `d2` equals `d` except that exactly one metric field moved from null to a
value; all other fields, the raw text and the tables are identical. -/
def oneMoreMetricField (d d2 : ExtractedData) : Prop :=
  (∃ v : ℚ, d.energy_consumption_kwh = Option.none ∧
    d2 = { d with energy_consumption_kwh := some v }) ∨
  (∃ v : ℚ, d.water_usage_liters = Option.none ∧
    d2 = { d with water_usage_liters := some v }) ∨
  (∃ v : ℚ, d.waste_generated_kg = Option.none ∧
    d2 = { d with waste_generated_kg := some v }) ∨
  (∃ v : ℚ, d.carbon_emissions_tco2 = Option.none ∧
    d2 = { d with carbon_emissions_tco2 := some v }) ∨
  (∃ v : ℚ, d.renewable_energy_percentage = Option.none ∧
    d2 = { d with renewable_energy_percentage := some v }) ∨
  (∃ n : ℤ, d.total_employees = Option.none ∧
    d2 = { d with total_employees := some n }) ∨
  (∃ v : ℚ, d.training_hours = Option.none ∧
    d2 = { d with training_hours := some v }) ∨
  (∃ n : ℤ, d.safety_incidents = Option.none ∧
    d2 = { d with safety_incidents := some n }) ∨
  (∃ v : ℚ, d.employee_satisfaction_score = Option.none ∧
    d2 = { d with employee_satisfaction_score := some v }) ∨
  (∃ v : ℚ, d.diversity_rate = Option.none ∧
    d2 = { d with diversity_rate := some v }) ∨
  (∃ n : ℤ, d.board_meetings = Option.none ∧
    d2 = { d with board_meetings := some n }) ∨
  (∃ v : ℚ, d.compliance_score = Option.none ∧
    d2 = { d with compliance_score := some v }) ∨
  (∃ n : ℤ, d.audit_findings = Option.none ∧
    d2 = { d with audit_findings := some n }) ∨
  (∃ n : ℤ, d.policy_updates = Option.none ∧
    d2 = { d with policy_updates := some n })

/-- C8: populating one additional metric field of an otherwise-identical
`ExtractedData` never decreases the computed confidence score. -/
theorem confidence_monotone (d d2 : ExtractedData) (h : oneMoreMetricField d d2) :
    calculateConfidence d ≤ calculateConfidence d2 := by
  unfold oneMoreMetricField at h
  rcases h with ⟨v, h1, h2⟩ | ⟨v, h1, h2⟩ | ⟨v, h1, h2⟩ | ⟨v, h1, h2⟩ | ⟨v, h1, h2⟩ |
    ⟨v, h1, h2⟩ | ⟨v, h1, h2⟩ | ⟨v, h1, h2⟩ | ⟨v, h1, h2⟩ | ⟨v, h1, h2⟩ | ⟨v, h1, h2⟩ |
    ⟨v, h1, h2⟩ | ⟨v, h1, h2⟩ | ⟨v, h1, h2⟩ <;> subst h2 <;>
    (unfold calculateConfidence rawTextLongBonus tablesBonus
     dsimp only
     refine min_le_min ?_ le_rfl
     refine mul_le_mul_of_nonneg_right ?_ (by norm_num)
     rw [div_le_div_iff_of_pos_right (by norm_num)]
     try simp only [h1]
     try linarith
     try simp)

/-- The base record of the C8 witness. -/
def monoBase : ExtractedData :=
  { file_name := "m.txt", file_type := "text", extraction_date := "",
    extraction_method := "text_extraction", confidence_score := 0 }

/-- Witness for C8: adding an energy value to a concrete record. -/
theorem confidence_monotone_witness :
    oneMoreMetricField monoBase { monoBase with energy_consumption_kwh := some 500 } ∧
    calculateConfidence monoBase ≤
      calculateConfidence { monoBase with energy_consumption_kwh := some 500 } :=
  ⟨Or.inl ⟨500, rfl, rfl⟩,
   confidence_monotone monoBase { monoBase with energy_consumption_kwh := some 500 }
     (Or.inl ⟨500, rfl, rfl⟩)⟩

/-- C4 (amended): within one parse, (i) a float metric field holding a nonzero
value is never overwritten by any of the three strategies, and neither is a
nonzero employee count; (ii) the truthiness-guarded strategies never store an
exact zero in a float metric field; (iii) on a still-null field the first
candidate whose parse is nonzero wins; (iv) a percentage block only ever stores
a value inside its scanned range (hence non-negative).  Non-negativity does NOT
hold for the table and key-value strategies (see the counterexample): the guard
is truthiness, not sign. -/
theorem metric_population_invariants :
    (∀ (f : NumField) (d : ExtractedData) (t : String) (m : ReMatches)
        (ts : List TableRec) (j : PyVal) (v : ℚ), v ≠ 0 → nfGet f d = some v →
        nfGet f (extractEsgMetrics d t m) = some v ∧
        nfGet f (extractFromTables d ts) = some v ∧
        nfGet f (extractFromJson d j) = some v) ∧
    (∀ (d : ExtractedData) (t : String) (m : ReMatches) (ts : List TableRec)
        (j : PyVal) (n : ℤ), n ≠ 0 → d.total_employees = some n →
        (extractEsgMetrics d t m).total_employees = some n ∧
        (extractFromTables d ts).total_employees = some n ∧
        (extractFromJson d j).total_employees = some n) ∧
    (∀ (f : NumField) (d : ExtractedData) (t : String) (m : ReMatches)
        (ts : List TableRec) (j : PyVal), nfGet f d ≠ some 0 →
        nfGet f (extractEsgMetrics d t m) ≠ some 0 ∧
        nfGet f (extractFromTables d ts) ≠ some 0 ∧
        nfGet f (extractFromJson d j) ≠ some 0) ∧
    (∀ l : List String, scanAssignQ Option.none l = firstNonzeroParse l) ∧
    (∀ (cur : Option ℚ) (cond : Bool) (lo hi : ℚ) (ps : List ℚ),
        percentAssign cur cond lo hi ps = cur ∨
        ∃ p, percentAssign cur cond lo hi ps = some p ∧ lo ≤ p ∧ p ≤ hi) :=
  ⟨fun f d t m ts j v hv h =>
    ⟨extractEsgMetrics_nonzero_preserved f d t m hv h,
     extractFromTables_nonzero_preserved f d ts hv h,
     extractFromJson_nonzero_preserved f d j hv h⟩,
   fun d t m ts j n hn h =>
    ⟨extractEsgMetrics_employees_nonzero d t m hn h,
     extractFromTables_employees_nonzero d ts hn h,
     extractFromJson_employees_nonzero d j hn h⟩,
   fun f d t m ts j h =>
    ⟨extractEsgMetrics_ne_zero f d t m h,
     extractFromTables_ne_zero f d ts h,
     extractFromJson_ne_zero f d j h⟩,
   scanAssignQ_none_eq_first,
   percentAssign_range⟩

/-- The input record of the C4 counterexample. -/
def negJsonBase : ExtractedData :=
  { file_name := "metrics.json", file_type := "json", extraction_date := "",
    extraction_method := "json_extraction", confidence_score := 0 }

/-- Counterexample for C4 as stated: the key-value strategy stores the negative
value of the JSON document `{"energy": -5}` into `energy_consumption_kwh`, so a
populated metric field need not be non-negative. -/
theorem json_negative_value_cex :
    (extractFromJson negJsonBase
      (PyVal.dict [("energy", PyVal.int (-5))])).energy_consumption_kwh =
      some (-5) ∧ ((-5 : ℚ) < 0) := by
  constructor
  · norm_num +decide [extractFromJson, negJsonBase, flattenJson,
      flattenJson.flattenPairs, pyDictOf, pyDictUpdate, jsonVocabAssign,
      guardAssignQ, parseNumber, optQTruthy]
  · norm_num

/-- The record of the C4 witness, holding a nonzero energy value. -/
def c4Populated : ExtractedData :=
  { file_name := "w.txt", file_type := "text", extraction_date := "",
    extraction_method := "text_extraction", confidence_score := 0,
    energy_consumption_kwh := some 5 }

/-- Witness for C4 at a concrete populated record: neither a table row nor a
JSON document overwrites the existing nonzero energy value. -/
theorem metric_population_invariants_witness :
    nfGet NumField.energy (extractFromTables c4Populated
      [[(some "Energy (kWh)", PyVal.int 7)]]) = some 5 ∧
    nfGet NumField.energy (extractFromJson c4Populated
      (PyVal.dict [("energy", PyVal.int 7)])) = some 5 :=
  ⟨(metric_population_invariants.1 NumField.energy c4Populated "" {}
      [[(some "Energy (kWh)", PyVal.int 7)]] (PyVal.dict [("energy", PyVal.int 7)])
      5 (by norm_num) rfl).2.1,
   (metric_population_invariants.1 NumField.energy c4Populated "" {}
      [[(some "Energy (kWh)", PyVal.int 7)]] (PyVal.dict [("energy", PyVal.int 7)])
      5 (by norm_num) rfl).2.2⟩

/-- C9 (amended): in every truthiness-guarded assignment a candidate parsing to
exactly 0 is skipped — it neither populates the field nor blocks a later
nonzero candidate — and consequently the five float metric fields never hold 0
after any strategy; the exception (see the counterexample) is the percentage
heuristic, which can store an exact 0, and the employee count, whose
truncation can produce 0 from a fractional parse. -/
theorem zero_candidates_skipped :
    (∀ (cur : Option ℚ) (c : String) (rest : List String),
        parseNumber (.str c) = some 0 →
        scanAssignQ cur (c :: rest) = scanAssignQ cur rest) ∧
    (∀ cur : Option ℚ, guardAssignQ cur (some 0) = cur) ∧
    (∀ cur : Option ℤ, guardAssignZ cur (some 0) = cur) ∧
    (∀ (f : NumField) (d : ExtractedData) (t : String) (m : ReMatches)
        (ts : List TableRec) (j : PyVal), nfGet f d ≠ some 0 →
        nfGet f (extractEsgMetrics d t m) ≠ some 0 ∧
        nfGet f (extractFromTables d ts) ≠ some 0 ∧
        nfGet f (extractFromJson d j) ≠ some 0) := by
  refine ⟨fun cur c rest h => ?_, guardAssignQ_zero_noop, guardAssignZ_zero_noop,
    fun f d t m ts j h =>
      ⟨extractEsgMetrics_ne_zero f d t m h,
       extractFromTables_ne_zero f d ts h,
       extractFromJson_ne_zero f d j h⟩⟩
  show scanAssignQ (guardAssignQ cur (parseNumber (.str c))) rest = _
  rw [h, guardAssignQ_zero_noop]

/-- The input record of the C9 counterexample. -/
def pctTextBase : ExtractedData :=
  { file_name := "report.txt", file_type := "text", extraction_date := "",
    extraction_method := "text_extraction", confidence_score := 0 }

/-- Counterexample for C9 as stated: on the text `renewable: 0%` (whose only
percentage match is `0`) the percentage heuristic stores an exact 0 into
`renewable_energy_percentage`, so a metric field CAN hold the value 0. -/
theorem renewable_zero_percent_cex :
    (extractEsgMetrics pctTextBase "renewable: 0%"
      { percentages := [0] }).renewable_energy_percentage = some 0 := by
  norm_num +decide [extractEsgMetrics, pctTextBase, percentAssign, scanAssignQ,
    scanAssignZ, optQTruthy, amountsOf]

/-- Witness for C9: a concrete zero-parsing candidate (`"0"`) is skipped by the
energy scan and does not block the later nonzero candidate. -/
theorem zero_candidates_skipped_witness :
    scanAssignQ Option.none ["0", "7"] = scanAssignQ Option.none ["7"] :=
  zero_candidates_skipped.1 Option.none "0" ["7"] (by
    have h0 : parseNumber (.str "0") = some (decOfParts ['0'] []) := rfl
    rw [h0]
    norm_num [decOfParts, natOfDigits, digitVal])

/-- C6 (amended): a missing optional library never raises, but it does NOT
trigger text fallback: each parser returns immediately with confidence 0, a raw
text naming the unavailable library, and `extraction_method` still the format's
own tag.  The `text_fallback` degradation belongs to the PDF exception path
with libraries present; when even the fallback read fails, `raw_text` holds the
original error message with confidence 0. -/
theorem missing_library_fail_soft (env env2 : ParseEnv) (fn : String)
    (hpd : env.pdfplumberAvail = false) (hpy : env.pypdf2Avail = false)
    (hpand : env.pandasAvail = false) (hpil : env.pilAvail = false)
    (hdocx : env.docxAvail = false) (hpd2 : env2.pdfplumberAvail = true) :
    parsePdf env fn = { baseResult env fn "pdf" "pdf_extraction" with
      raw_text := some "PDF parsing libraries not available" } ∧
    parseExcel env fn = { baseResult env fn "excel" "excel_extraction" with
      raw_text := some "Excel parsing libraries not available" } ∧
    parseCsv env fn = { baseResult env fn "csv" "csv_extraction" with
      raw_text := some "CSV parsing libraries not available" } ∧
    parseImage env fn = { baseResult env fn "image" "ocr_extraction" with
      raw_text := some "Image OCR libraries not available" } ∧
    parseDocx env fn = { baseResult env fn "docx" "docx_extraction" with
      raw_text := some "DOCX parsing libraries not available" } ∧
    (∀ e t, env2.plumberPages = .error e → env2.fileRead = .ok t →
      (parsePdf env2 fn).extraction_method = "text_fallback" ∧
      (parsePdf env2 fn).raw_text = some t) ∧
    (∀ e e2, env2.plumberPages = .error e → env2.fileRead = .error e2 →
      parsePdf env2 fn = { baseResult env2 fn "pdf" "pdf_extraction" with
        raw_text := some ("Error: " ++ e) }) := by
  refine ⟨?_, ?_, ?_, ?_, ?_, ?_, ?_⟩
  · unfold parsePdf
    rw [hpd, hpy]
    rfl
  · unfold parseExcel
    rw [hpand]
    rfl
  · unfold parseCsv
    rw [hpand]
    rfl
  · unfold parseImage
    rw [hpil]
    rfl
  · unfold parseDocx
    rw [hdocx]
    rfl
  · intro e t hperr hread
    unfold parsePdf pdfTextFallback
    rw [hpd2, hperr, hread]
    constructor
    · simp [Except.map, (extractEsgMetrics_meta _ _ _).2.2.2.1]
    · simp [Except.map, (extractEsgMetrics_meta _ _ _).2.2.2.2.2.1]
  · intro e e2 hperr hread
    unfold parsePdf pdfTextFallback
    rw [hpd2, hperr, hread]
    simp [Except.map]

/-- An environment in which no optional parsing library imported. -/
def envNoLibs : ParseEnv :=
  { pdfplumberAvail := false, pypdf2Avail := false, pandasAvail := false,
    pilAvail := false, docxAvail := false }

/-- Counterexample for C6 as stated: with the PDF libraries unavailable the
parser does NOT degrade to `extraction_method="text_fallback"`; the method
stays `pdf_extraction` (and no text decode is attempted), with confidence 0. -/
theorem missing_library_method_cex :
    (parsePdf envNoLibs "report.pdf").extraction_method = "pdf_extraction" ∧
    (parsePdf envNoLibs "report.pdf").extraction_method ≠ "text_fallback" ∧
    (parsePdf envNoLibs "report.pdf").raw_text =
      some "PDF parsing libraries not available" ∧
    (parsePdf envNoLibs "report.pdf").confidence_score = 0 := by
  refine ⟨rfl, ?_, rfl, rfl⟩
  decide

/-- An environment whose pdfplumber call raises but whose plain read works. -/
def envPdfBroken : ParseEnv :=
  { plumberPages := .error "bad xref", fileRead := .ok "plain text body" }

/-- Witness for C6: the concrete no-library environment and the concrete
broken-PDF environment exercise the early return and the fallback path. -/
theorem missing_library_fail_soft_witness :
    parseExcel envNoLibs "data.xlsx" =
      { baseResult envNoLibs "data.xlsx" "excel" "excel_extraction" with
        raw_text := some "Excel parsing libraries not available" } ∧
    (parsePdf envPdfBroken "broken.pdf").extraction_method = "text_fallback" ∧
    (parsePdf envPdfBroken "broken.pdf").raw_text = some "plain text body" :=
  ⟨(missing_library_fail_soft envNoLibs envPdfBroken "data.xlsx" rfl rfl rfl rfl rfl
      rfl).2.1,
   ((missing_library_fail_soft envNoLibs envPdfBroken "broken.pdf" rfl rfl rfl rfl rfl
      rfl).2.2.2.2.2.1 "bad xref" "plain text body" rfl rfl).1,
   ((missing_library_fail_soft envNoLibs envPdfBroken "broken.pdf" rfl rfl rfl rfl rfl
      rfl).2.2.2.2.2.1 "bad xref" "plain text body" rfl rfl).2⟩

/-- The simple metric extraction leaves the raw text and confidence alone. -/
theorem extractSimpleMetrics_meta (d : SimpleExtractedData) (t : String)
    (m : SimpleMatches) :
    (extractSimpleMetrics d t m).raw_text = d.raw_text ∧
    (extractSimpleMetrics d t m).confidence_score = d.confidence_score := by
  unfold extractSimpleMetrics
  repeat' split
  all_goals simp

/-- C10 (amended): `SimpleFileParser.parse_file` never returns confidence 0.
On a successful read the score is `min(base + found/11·70, 100)` where the base
is 30 exactly when the raw text is non-empty and longer than 50 characters and
10 otherwise — the base does not depend on whether metrics were found — so the
score is at least 10; when the read raises, the constructor's default 50.0 is
retained unchanged. -/
theorem simple_confidence_never_zero (env : SimpleEnv) (filePath : String) :
    (simpleParseFile env filePath).confidence_score ≠ 0 ∧
    (∀ e, env.fileRead = .error e →
      (simpleParseFile env filePath).confidence_score = 50) ∧
    (∀ t, env.fileRead = .ok t →
      (simpleParseFile env filePath).confidence_score =
        min ((if !t.isEmpty && decide (50 < t.length) then (30 : ℚ) else 10) +
          ((countSimpleMetrics (simpleParseFile env filePath) : ℚ) / 11) * 70) 100 ∧
      10 ≤ (simpleParseFile env filePath).confidence_score) := by
  have herr : ∀ e, env.fileRead = .error e →
      (simpleParseFile env filePath).confidence_score = 50 := by
    intro e he
    unfold simpleParseFile
    rw [he]
  have hok : ∀ t, env.fileRead = .ok t →
      (simpleParseFile env filePath).confidence_score =
        min ((if !t.isEmpty && decide (50 < t.length) then (30 : ℚ) else 10) +
          ((countSimpleMetrics (simpleParseFile env filePath) : ℚ) / 11) * 70) 100 := by
    intro t ht
    unfold simpleParseFile
    rw [ht]
    dsimp only
    unfold calculateSimpleConfidence
    dsimp only
    rw [(extractSimpleMetrics_meta _ _ _).1]
    rfl
  have hge : ∀ t, env.fileRead = .ok t →
      10 ≤ (simpleParseFile env filePath).confidence_score := by
    intro t ht
    rw [hok t ht]
    have h1 : (10 : ℚ) ≤
        (if !t.isEmpty && decide (50 < t.length) then (30 : ℚ) else 10) := by
      split_ifs <;> norm_num
    have h2 : (0 : ℚ) ≤
        ((countSimpleMetrics (simpleParseFile env filePath) : ℚ) / 11) * 70 := by
      positivity
    exact le_min (by linarith) (by norm_num)
  refine ⟨?_, herr, fun t ht => ⟨hok t ht, hge t ht⟩⟩
  cases hr : env.fileRead with
  | error e =>
    rw [herr e hr]
    norm_num
  | ok t =>
    have h10 := hge t hr
    intro h0
    rw [h0] at h10
    norm_num at h10

/-- The environment of the C10 counterexample: a short text whose energy
pattern matches once. -/
def envSimple500 : SimpleEnv :=
  { fileRead := .ok "500 kwh", rx := fun _ => { energy := some "500" } }

/-- Counterexample for C10 as stated: on the 7-character text `500 kwh` with
one metric found, the code's base is 10 (length ≤ 50, regardless of metrics),
giving 10 + 70/11 = 180/11 ≈ 16.4, while the claim's base-30-when-metrics-found
formula predicts 400/11 ≈ 36.4. -/
theorem simple_confidence_base_cex :
    (simpleParseFile envSimple500 "f.txt").confidence_score = 180 / 11 ∧
    claimedSimpleConfidence (simpleParseFile envSimple500 "f.txt") = 400 / 11 ∧
    (simpleParseFile envSimple500 "f.txt").confidence_score ≠
      claimedSimpleConfidence (simpleParseFile envSimple500 "f.txt") := by
  have h1 : (simpleParseFile envSimple500 "f.txt").confidence_score = 180 / 11 := by
    norm_num +decide [simpleParseFile, envSimple500, simpleFileName, simpleExtension,
      strContainsSub, extractSimpleMetrics, simpleParseNum, pyReplace, replaceGo,
      pyTrim, pyFloatOfString, parseUnsignedDec, decOfParts, natOfDigits, digitVal,
      simplePercentAssign, calculateSimpleConfidence, countSimpleMetrics]
  have h2 : claimedSimpleConfidence (simpleParseFile envSimple500 "f.txt") = 400 / 11 := by
    norm_num +decide [simpleParseFile, envSimple500, simpleFileName, simpleExtension,
      strContainsSub, extractSimpleMetrics, simpleParseNum, pyReplace, replaceGo,
      pyTrim, pyFloatOfString, parseUnsignedDec, decOfParts, natOfDigits, digitVal,
      simplePercentAssign, calculateSimpleConfidence, countSimpleMetrics,
      claimedSimpleConfidence]
  refine ⟨h1, h2, ?_⟩
  rw [h1, h2]
  norm_num

/-- The failing-read environment of the C10 witness. -/
def envSimpleErr : SimpleEnv := { fileRead := .error "disk error" }

/-- Witness for C10: on a failing read the default confidence 50 is retained
and the score is nonzero. -/
theorem simple_confidence_never_zero_witness :
    (simpleParseFile envSimpleErr "f.txt").confidence_score ≠ 0 ∧
    (simpleParseFile envSimpleErr "f.txt").confidence_score = 50 :=
  ⟨(simple_confidence_never_zero envSimpleErr "f.txt").1,
   (simple_confidence_never_zero envSimpleErr "f.txt").2.1 "disk error" rfl⟩

/-- The scan keeps `r` when no challenger has a strictly greater date. -/
theorem latestStep_keep {r x : DbRecord}
    (h : x = r ∨ x.extraction_date < r.extraction_date) :
    latestStep (some r) x = some r := by
  rcases h with rfl | hlt
  · simp [latestStep]
  · simp [latestStep, not_lt.mpr hlt.le]

/-- Once the scan holds `r`, records no newer than `r` cannot displace it. -/
theorem latestFold_keep (r : DbRecord) :
    ∀ l : List DbRecord,
      (∀ x ∈ l, x = r ∨ x.extraction_date < r.extraction_date) →
      l.foldl latestStep (some r) = some r
  | [], _ => rfl
  | x :: rest, h => by
    rw [List.foldl_cons, latestStep_keep (h x (List.mem_cons_self _ _))]
    exact latestFold_keep r rest (fun y hy => h y (List.mem_cons_of_mem _ hy))

/-- The scan reaches the unique newest record from any older accumulator. -/
theorem latestFold_reach (r : DbRecord) :
    ∀ (l : List DbRecord) (acc : Option DbRecord),
      r ∈ l → (∀ x ∈ l, x = r ∨ x.extraction_date < r.extraction_date) →
      (acc = Option.none ∨
        ∃ b, acc = some b ∧ b.extraction_date < r.extraction_date) →
      l.foldl latestStep acc = some r
  | [], _, hr, _, _ => absurd hr (List.not_mem_nil _)
  | x :: rest, acc, hr, h, hacc => by
    rcases h x (List.mem_cons_self _ _) with rfl | hlt
    · have hstep : latestStep acc x = some x := by
        rcases hacc with rfl | ⟨b, rfl, hb⟩
        · rfl
        · simp [latestStep, hb]
      rw [List.foldl_cons, hstep]
      exact latestFold_keep x rest (fun y hy => h y (List.mem_cons_of_mem _ hy))
    · have hrrest : r ∈ rest := by
        rcases List.mem_cons.mp hr with rfl | hm
        · exact absurd hlt (lt_irrefl _)
        · exact hm
      have hnew : ∃ b, latestStep acc x = some b ∧
          b.extraction_date < r.extraction_date := by
        rcases hacc with rfl | ⟨b, rfl, hb⟩
        · exact ⟨x, rfl, hlt⟩
        · by_cases hc : b.extraction_date < x.extraction_date
          · exact ⟨x, by simp [latestStep, hc], hlt⟩
          · exact ⟨b, by simp [latestStep, hc], hb⟩
      rw [List.foldl_cons]
      exact latestFold_reach r rest _ hrrest
        (fun y hy => h y (List.mem_cons_of_mem _ hy)) (Or.inr hnew)

/-- `latestRecord` finds the record with the strictly greatest date. -/
theorem latestRecord_eq_of_unique_max (l : List DbRecord) (r : DbRecord)
    (hr : r ∈ l)
    (hmax : ∀ x ∈ l, x = r ∨ x.extraction_date < r.extraction_date) :
    latestRecord l = some r :=
  latestFold_reach r l Option.none hr hmax (Or.inl rfl)

/-- `latestNonNull` finds the non-null record with the strictly greatest
date. -/
theorem latestNonNull_eq {α : Type} (get : DbRecord → Option α)
    (rs : List DbRecord) (r : DbRecord) (hr : r ∈ rs) (hsome : (get r).isSome)
    (hmax : ∀ x ∈ rs, (get x).isSome →
      x = r ∨ x.extraction_date < r.extraction_date) :
    latestNonNull get rs = some r := by
  unfold latestNonNull
  apply latestRecord_eq_of_unique_max
  · exact List.mem_filter.mpr ⟨hr, hsome⟩
  · intro x hx
    have hm := List.mem_filter.mp hx
    exact hmax x hm.1 hm.2

/-- `latestNonNull` is empty when every record's field is null. -/
theorem latestNonNull_none {α : Type} (get : DbRecord → Option α)
    (rs : List DbRecord) (h : ∀ x ∈ rs, get x = Option.none) :
    latestNonNull get rs = Option.none := by
  unfold latestNonNull
  have : rs.filter (fun r => (get r).isSome) = [] := by
    rw [List.filter_eq_nil]
    intro x hx
    simp [h x hx]
  rw [this]
  rfl

/-- The float metrics that `update_company_metrics_cache` aggregates
latest-wins. -/
inductive AggMetricQ where
  | energy | water | waste | carbon | compliance
deriving DecidableEq, Repr

/-- Record accessor for `AggMetricQ`. -/
def aggGetQ : AggMetricQ → DbRecord → Option ℚ
  | .energy => fun r => r.energy_consumption_kwh
  | .water => fun r => r.water_usage_liters
  | .waste => fun r => r.waste_generated_kg
  | .carbon => fun r => r.carbon_emissions_tco2
  | .compliance => fun r => r.compliance_score

/-- Metrics-dict accessor for `AggMetricQ`. -/
def aggMetricsQ : AggMetricQ → CompanyMetrics → Option ℚ
  | .energy => fun m => m.env_energy_consumption_kwh
  | .water => fun m => m.env_water_usage_liters
  | .waste => fun m => m.env_waste_generated_kg
  | .carbon => fun m => m.env_carbon_emissions_tco2
  | .compliance => fun m => m.gov_compliance_score

/-- C3 (amended): for the metrics the aggregator actually handles — energy,
water, waste, carbon, compliance (float) and the employee count (int) — the
snapshot reports the value of the completed record with the strictly latest
extraction date among those with the field non-null, and omits the key when no
completed record has one; the renewable-energy percentage, the employee
satisfaction score and the board-meeting count are never written into the
snapshot at all. -/
theorem aggregator_latest_wins (records : List DbRecord) :
    (∀ (f : AggMetricQ) (r : DbRecord),
        r ∈ completedRecords records → (aggGetQ f r).isSome →
        (∀ x ∈ completedRecords records, (aggGetQ f x).isSome →
          x = r ∨ x.extraction_date < r.extraction_date) →
        aggMetricsQ f (update_company_metrics_cache records) = aggGetQ f r) ∧
    (∀ f : AggMetricQ,
        (∀ x ∈ completedRecords records, aggGetQ f x = Option.none) →
        aggMetricsQ f (update_company_metrics_cache records) = Option.none) ∧
    (∀ r : DbRecord,
        r ∈ completedRecords records → r.total_employees.isSome →
        (∀ x ∈ completedRecords records, x.total_employees.isSome →
          x = r ∨ x.extraction_date < r.extraction_date) →
        (update_company_metrics_cache records).social_total_employees =
          r.total_employees) ∧
    ((∀ x ∈ completedRecords records, x.total_employees = Option.none) →
        (update_company_metrics_cache records).social_total_employees =
          Option.none) ∧
    (update_company_metrics_cache records).env_renewable_energy_percentage =
      Option.none ∧
    (update_company_metrics_cache records).social_employee_satisfaction_score =
      Option.none ∧
    (update_company_metrics_cache records).gov_board_meetings = Option.none := by
  unfold update_company_metrics_cache
  by_cases hed : (completedRecords records).isEmpty
  · rw [if_pos hed]
    have hnil : completedRecords records = [] := List.isEmpty_iff.mp hed
    refine ⟨?_, ?_, ?_, ?_, rfl, rfl, rfl⟩
    · intro f r hr _ _
      rw [hnil] at hr
      exact absurd hr (List.not_mem_nil _)
    · intro f _
      cases f <;> rfl
    · intro r hr _ _
      rw [hnil] at hr
      exact absurd hr (List.not_mem_nil _)
    · intro _
      rfl
  · rw [if_neg hed]
    refine ⟨?_, ?_, ?_, ?_, rfl, rfl, rfl⟩
    · intro f r hr hsome hmax
      cases f <;>
        simp only [aggMetricsQ, aggGetQ] at hsome hmax ⊢ <;>
        rw [latestNonNull_eq _ _ r hr hsome hmax]
    · intro f h
      cases f <;>
        simp only [aggMetricsQ, aggGetQ] at h ⊢ <;>
        rw [latestNonNull_none _ _ h]
    · intro r hr hsome hmax
      simp only []
      rw [latestNonNull_eq _ _ r hr hsome hmax]
    · intro h
      simp only []
      rw [latestNonNull_none _ _ h]

/-- The completed record of the C3 counterexample, with a non-null renewable
percentage. -/
def recRenew : DbRecord :=
  { extraction_date := 1, confidence_score := 80,
    processing_status := "completed", renewable_energy_percentage := some 50 }

/-- Counterexample for C3 as stated: the aggregator never writes the renewable
energy key, even though a completed record has a non-null value — the claim's
metric set includes renewable%, satisfaction and board meetings, none of which
the code aggregates. -/
theorem aggregator_renewable_cex :
    recRenew.processing_status = "completed" ∧
    recRenew.renewable_energy_percentage = some 50 ∧
    (update_company_metrics_cache [recRenew]).env_renewable_energy_percentage =
      Option.none := by
  exact ⟨rfl, rfl, rfl⟩

/-- The older energy record (800 kWh at date 1) of the C3 witness. -/
def rec800 : DbRecord :=
  { extraction_date := 1, confidence_score := 80,
    processing_status := "completed", energy_consumption_kwh := some 800 }

/-- The newer energy record (750 kWh at date 2) of the C3 witness. -/
def rec750 : DbRecord :=
  { extraction_date := 2, confidence_score := 90,
    processing_status := "completed", energy_consumption_kwh := some 750 }

/-- Witness for C3: with completed energy records 800 (older) and 750 (newer)
the snapshot reports 750 — latest wins, not the sum or the average. -/
theorem aggregator_latest_wins_witness :
    aggMetricsQ AggMetricQ.energy (update_company_metrics_cache [rec800, rec750]) =
      some 750 := by
  have hcomp : completedRecords [rec800, rec750] = [rec800, rec750] := rfl
  have hmem : rec750 ∈ completedRecords [rec800, rec750] := by
    rw [hcomp]
    exact List.mem_cons_of_mem _ (List.mem_cons_self _ _)
  have hmax : ∀ x ∈ completedRecords [rec800, rec750],
      (aggGetQ AggMetricQ.energy x).isSome →
      x = rec750 ∨ x.extraction_date < rec750.extraction_date := by
    rw [hcomp]
    intro x hx _
    rcases List.mem_cons.mp hx with rfl | hx2
    · right
      decide
    · rcases List.mem_cons.mp hx2 with rfl | hx3
      · left
        rfl
      · exact absurd hx3 (List.not_mem_nil _)
  have h := (aggregator_latest_wins [rec800, rec750]).1 AggMetricQ.energy rec750
    hmem rfl hmax
  rw [h]
  rfl

/-- Pre-filtering on non-nullness does not change a `filterMap`. -/
theorem filterMap_filter_isSome {α β : Type _} (get : α → Option β) (l : List α) :
    (l.filter (fun x => (get x).isSome)).filterMap get = l.filterMap get := by
  induction l with
  | nil => rfl
  | cons a rest ih =>
    cases hg : get a with
    | none => simp [List.filter_cons, List.filterMap_cons, hg, ih]
    | some b => simp [List.filter_cons, List.filterMap_cons, hg, ih]

/-- C5 (amended): the snapshot counts exactly the completed records, averages
their confidence (0 when there are none), and treats training hours as the
arithmetic mean over the completed records with a non-null value — not as the
latest value — but omits the key when there are no such records OR when that
mean is exactly 0 (the Python truthiness guard `if avg_training[...]:`). -/
theorem aggregator_counts_and_training_mean (records : List DbRecord) :
    (update_company_metrics_cache records).total_files_processed =
      (completedRecords records).length ∧
    (update_company_metrics_cache records).average_confidence =
      (if (completedRecords records).isEmpty then 0
       else ((completedRecords records).map (fun r => r.confidence_score)).sum /
         ((completedRecords records).length : ℚ)) ∧
    ((update_company_metrics_cache records).social_training_hours_avg =
      (let tvals := (completedRecords records).filterMap (fun r => r.training_hours)
       if tvals.isEmpty then Option.none
       else if tvals.sum / (tvals.length : ℚ) = 0 then Option.none
       else some (tvals.sum / (tvals.length : ℚ)))) := by
  unfold update_company_metrics_cache
  by_cases hed : (completedRecords records).isEmpty
  · rw [if_pos hed]
    have hnil : completedRecords records = [] := List.isEmpty_iff.mp hed
    refine ⟨?_, ?_, ?_⟩
    · rw [hnil]
      rfl
    · rw [if_pos hed]
    · rw [hnil]
      rfl
  · rw [if_neg hed]
    refine ⟨rfl, ?_, ?_⟩
    · rw [if_neg hed]
    · simp only [filterMap_filter_isSome (fun r => r.training_hours)
        (completedRecords records)]
      by_cases ht : ((completedRecords records).filterMap
          (fun r => r.training_hours)).isEmpty
      · simp [ht]
      · by_cases hz : ((completedRecords records).filterMap
              (fun r => r.training_hours)).sum /
            (((completedRecords records).filterMap
              (fun r => r.training_hours)).length : ℚ) = 0
        · simp [ht, hz, bne_iff_ne]
        · simp [ht, hz, bne_iff_ne]

/-- The single completed record of the C5 counterexample, with training hours
recorded as 0. -/
def recTrainZero : DbRecord :=
  { extraction_date := 1, confidence_score := 70,
    processing_status := "completed", training_hours := some 0 }

/-- Counterexample for C5 as stated: with one completed record whose
training-hours value is 0, the mean over non-null values is 0, and the
truthiness guard drops the key instead of reporting that mean. -/
theorem aggregator_training_zero_cex :
    recTrainZero.processing_status = "completed" ∧
    recTrainZero.training_hours = some 0 ∧
    (update_company_metrics_cache [recTrainZero]).social_training_hours_avg =
      Option.none := by
  refine ⟨rfl, rfl, ?_⟩
  norm_num +decide [update_company_metrics_cache, completedRecords, recTrainZero,
    latestNonNull, latestRecord, latestStep, List.filterMap_cons, List.sum_cons,
    List.sum_nil]

/-- Nat `==` is symmetric. -/
theorem natBeqComm (m n : ℕ) : (m == n) = (n == m) := by
  by_cases h : m = n
  · subst h
    rfl
  · have h1 : (m == n) = false := beq_eq_false_iff_ne.mpr h
    have h2 : (n == m) = false := beq_eq_false_iff_ne.mpr (fun hh => h hh.symm)
    rw [h1, h2]

/-- The record left by processing one attachment carries that attachment's
id. -/
theorem finishedRec_att (outcome : ℕ → Except String ℚ) (a : Attachment) :
    (finishedRec outcome a).task_attachment_id = a.id := by
  unfold finishedRec
  cases outcome a.id <;> rfl

/-- Normal form of the forced batch loop: the records of unselected
attachments survive untouched, and each selected attachment ends with exactly
its freshly produced record, in selection order. -/
theorem processForce_normal (outcome : ℕ → Except String ℚ) :
    ∀ (sel : List Attachment) (recs : List CmdRecord),
      (sel.map (fun a => a.id)).Nodup →
      sel.foldl (processOne outcome true) recs =
        recs.filter
          (fun r => !sel.any (fun a => a.id == r.task_attachment_id)) ++
        sel.map (finishedRec outcome)
  | [], recs, _ => by
    rw [List.foldl_nil, List.map_nil, List.append_nil]
    symm
    rw [List.filter_eq_self]
    intro r _
    rfl
  | a :: rest, recs, hnodup => by
    have hmap : ((a :: rest).map (fun a => a.id)) =
        a.id :: rest.map (fun a => a.id) := rfl
    rw [hmap] at hnodup
    have hna : a.id ∉ rest.map (fun a => a.id) := (List.nodup_cons.mp hnodup).1
    have hnd : (rest.map (fun a => a.id)).Nodup := (List.nodup_cons.mp hnodup).2
    rw [List.foldl_cons]
    have hstep : processOne outcome true recs a =
        recs.filter (fun r => r.task_attachment_id != a.id) ++
        [finishedRec outcome a] := rfl
    rw [hstep, processForce_normal outcome rest _ hnd, List.filter_append]
    have hany : rest.any
        (fun x => x.id == (finishedRec outcome a).task_attachment_id) = false := by
      rw [finishedRec_att]
      rw [List.any_eq_false]
      intro x hx
      simp only [beq_iff_eq]
      intro hxx
      exact hna (List.mem_map.mpr ⟨x, hx, hxx⟩)
    have hfin : ([finishedRec outcome a].filter
        (fun r => !rest.any (fun x => x.id == r.task_attachment_id))) =
        [finishedRec outcome a] := by
      simp [List.filter_cons, hany]
    have hff : ((recs.filter (fun r => r.task_attachment_id != a.id)).filter
        (fun r => !rest.any (fun x => x.id == r.task_attachment_id))) =
        recs.filter
          (fun r => !(a :: rest).any (fun x => x.id == r.task_attachment_id)) := by
      rw [List.filter_filter]
      apply List.filter_congr
      intro r _
      simp only [List.any_cons, Bool.not_or, bne, natBeqComm a.id r.task_attachment_id]
      rw [Bool.and_comm]
    rw [hfin, hff, List.map_cons]
    simp [List.append_assoc]

/-- C7 (amended): without `--force` the batch skips every attachment that has
an extraction record of ANY status (not only completed ones); with `--force`
every attachment's old records are deleted and replaced by exactly one fresh
completed-or-failed record, and running the forced batch twice leaves the same
store as running it once. -/
theorem process_existing_files_props (outcome : ℕ → Except String ℚ)
    (atts : List Attachment) (recs : List CmdRecord)
    (hnodup : (atts.map (fun a => a.id)).Nodup) :
    (∀ a ∈ atts, (∃ r ∈ recs, r.task_attachment_id = a.id) →
      a ∉ selectForProcessing false Option.none atts recs) ∧
    processExistingFiles true Option.none outcome atts recs =
      recs.filter
        (fun r => !atts.any (fun a => a.id == r.task_attachment_id)) ++
      atts.map (finishedRec outcome) ∧
    processExistingFiles true Option.none outcome atts
        (processExistingFiles true Option.none outcome atts recs) =
      processExistingFiles true Option.none outcome atts recs := by
  have hnorm : ∀ rs : List CmdRecord,
      processExistingFiles true Option.none outcome atts rs =
        rs.filter
          (fun r => !atts.any (fun a => a.id == r.task_attachment_id)) ++
        atts.map (finishedRec outcome) := by
    intro rs
    unfold processExistingFiles selectForProcessing
    exact processForce_normal outcome atts rs hnodup
  refine ⟨?_, hnorm recs, ?_⟩
  · rintro a ha ⟨r, hr, hid⟩ hmem
    unfold selectForProcessing at hmem
    have hm := List.mem_filter.mp hmem
    have hany : recs.any (fun r2 => r2.task_attachment_id == a.id) = true :=
      List.any_eq_true.mpr ⟨r, hr, by simp [hid]⟩
    rw [hany] at hm
    simp at hm
  · rw [hnorm recs, hnorm _, List.filter_append]
    have hRR : ((recs.filter
        (fun r => !atts.any (fun a => a.id == r.task_attachment_id))).filter
        (fun r => !atts.any (fun a => a.id == r.task_attachment_id))) =
        recs.filter
          (fun r => !atts.any (fun a => a.id == r.task_attachment_id)) := by
      rw [List.filter_filter]
      apply List.filter_congr
      intro r _
      exact Bool.and_self _
    have hMM : ((atts.map (finishedRec outcome)).filter
        (fun r => !atts.any (fun a => a.id == r.task_attachment_id))) = [] := by
      rw [List.filter_eq_nil]
      intro r hrm
      rcases List.mem_map.mp hrm with ⟨a, ha, rfl⟩
      have : atts.any
          (fun x => x.id == (finishedRec outcome a).task_attachment_id) = true := by
        rw [finishedRec_att]
        exact List.any_eq_true.mpr ⟨a, ha, by simp⟩
      simp [this]
    rw [hRR, hMM, List.append_nil]

/-- The attachment of the C7 counterexample and witness. -/
def attOne : Attachment := { id := 1 }

/-- A failed extraction record for that attachment. -/
def recFailed : CmdRecord :=
  { task_attachment_id := 1, processing_status := "failed",
    error_message := "boom" }

/-- Counterexample for C7 as stated: an attachment whose only record is failed
(not completed) is nevertheless excluded from the non-force queryset — the
exclusion list carries no status filter. -/
theorem skip_any_record_cex :
    recFailed.processing_status ≠ "completed" ∧
    selectForProcessing false Option.none [attOne] [recFailed] = [] := by
  constructor
  · decide
  · rfl

/-- Witness for C7: the forced batch over one attachment with a failed record
is idempotent. -/
theorem process_existing_files_props_witness :
    processExistingFiles true Option.none (fun _ => .ok 90) [attOne]
        (processExistingFiles true Option.none (fun _ => .ok 90) [attOne]
          [recFailed]) =
      processExistingFiles true Option.none (fun _ => .ok 90) [attOne]
        [recFailed] :=
  (process_existing_files_props (fun _ => .ok 90) [attOne] [recFailed]
    (by decide)).2.2
